import Mathlib

/-!
# terraform-provider-gemctl: resource client and reconciler

A shallow embedding of `internal/client` (client.go, datastores.go, engines.go) and of
the resource and provider operations of `internal/provider`.

Conventions of the embedding.

* A Go `string` is a Lean `String`.
* A Go slice or map that may be `nil` is an `Option`: `none` is `nil`,
  `some []` is the empty non-nil container.
* A Go `error` is its message; `(*T, error)` is `Option T × Option String`.
* `map[string]interface{}` values that only ever hold strings are association
  lists `List (String × String)`.
* Time is a monotonic clock in nanoseconds; a poller acts on a `World` holding the
  trace, the clock, the sleeps and the start times of its status fetches.
* The remote API is an oracle: each endpoint answers from the history of the
  calls made so far and the request. Every call is appended to a trace
  together with its outcome, so the sequence of remote calls an operation
  issues can be read off the trace.
-/

namespace Gemctl

/-! ## Wire types (google.golang.org/api/discoveryengine/v1, fields used by the client) -/

/-- Wire `GoogleCloudDiscoveryengineV1DataStoreBillingEstimation`. -/
structure WireBillingEstimation where
  UnstructuredDataSize : Int
  UnstructuredDataUpdateTime : String
  deriving DecidableEq, Repr

/-- Wire `GoogleCloudDiscoveryengineV1DataStore`. -/
structure WireDataStore where
  Name : String := ""
  DisplayName : String := ""
  IndustryVertical : String := ""
  ContentConfig : String := ""
  CreateTime : String := ""
  SolutionTypes : Option (List String) := none
  AclEnabled : Bool := false
  BillingEstimation : Option WireBillingEstimation := none
  deriving DecidableEq, Repr

/-- Wire `GoogleCloudDiscoveryengineV1EngineCommonConfig`. -/
structure WireEngineCommonConfig where
  CompanyName : String
  deriving DecidableEq, Repr

/-- Wire `GoogleCloudDiscoveryengineV1Engine`. -/
structure WireEngine where
  Name : String := ""
  DisplayName : String := ""
  SolutionType : String := ""
  IndustryVertical : String := ""
  AppType : String := ""
  CreateTime : String := ""
  DataStoreIds : Option (List String) := none
  CommonConfig : Option WireEngineCommonConfig := none
  Features : Option (List (String × String)) := none
  deriving DecidableEq, Repr

/-- Wire `GoogleCloudDiscoveryengineV1Document`. -/
structure WireDocument where
  Id : String := ""
  IndexTime : String := ""
  deriving DecidableEq, Repr

/-- Wire `GoogleCloudDiscoveryengineV1Schema`. -/
structure WireSchema where
  Name : String := ""
  deriving DecidableEq, Repr

/-- Wire `GoogleCloudDiscoveryengineV1GcsSource`. -/
structure WireGcsSource where
  InputUris : Option (List String)
  DataSchema : String
  deriving DecidableEq, Repr

/-- Wire `GoogleCloudDiscoveryengineV1ImportDocumentsRequest`. -/
structure WireImportDocumentsRequest where
  GcsSource : Option WireGcsSource
  ReconciliationMode : String
  deriving DecidableEq, Repr

/-- Wire `GoogleLongrunningOperation`: the body of a create, import or delete response.
`Error` is the `%v` rendering of the `*GoogleRpcStatus`, `Response` the JSON object of
the raw response message (its string fields). -/
structure WireOperation where
  Name : String := ""
  Done : Bool := false
  Error : Option String := none
  Response : Option (List (String × String)) := none
  deriving DecidableEq, Repr

/-- Wire `GoogleCloudDiscoveryengineV1ListDataStoresResponse`. -/
structure WireListDataStoresResponse where
  DataStores : Option (List WireDataStore) := none
  deriving DecidableEq, Repr

/-- Wire `GoogleCloudDiscoveryengineV1ListEnginesResponse`. -/
structure WireListEnginesResponse where
  Engines : Option (List WireEngine) := none
  deriving DecidableEq, Repr

/-- Wire `GoogleCloudDiscoveryengineV1ListDocumentsResponse`. -/
structure WireListDocumentsResponse where
  Documents : Option (List WireDocument) := none
  deriving DecidableEq, Repr

/-! ## The remote API -/

/-- A request issued to the remote management API: the service method together with
its arguments (parent or name, request body, id query parameter). -/
inductive Call where
  | DataStoresList (parent : String)
  | DataStoresGet (name : String)
  | SchemasGet (name : String)
  | DataStoresCreate (parent : String) (body : WireDataStore) (dataStoreId : String)
  | DocumentsImport (parent : String) (body : WireImportDocumentsRequest)
  | DocumentsList (parent : String)
  | DataStoresDelete (name : String)
  | EnginesList (parent : String)
  | EnginesGet (name : String)
  | EnginesCreate (parent : String) (body : WireEngine) (engineId : String)
  | EnginesDelete (name : String)
  | OperationsGet (name : String)
  deriving DecidableEq, Repr

/-- One remote call as it happened: the request and, when it failed, the error. -/
structure Event where
  call : Call
  err : Option String
  deriving DecidableEq, Repr

/-- The remote calls issued so far, oldest first. -/
abbrev Trace := List Event

/-- The `discoveryengine.Service`: for each method, the answer of `call.Do()` given
the calls made before it. Any behaviour of the remote API, stateful or not, is one
such family of functions. -/
structure Service where
  DataStoresList : Trace → String → Except String WireListDataStoresResponse
  DataStoresGet : Trace → String → Except String WireDataStore
  SchemasGet : Trace → String → Except String WireSchema
  DataStoresCreate : Trace → String → WireDataStore → String → Except String WireOperation
  DocumentsImport : Trace → String → WireImportDocumentsRequest → Except String WireOperation
  DocumentsList : Trace → String → Except String WireListDocumentsResponse
  DataStoresDelete : Trace → String → Except String WireOperation
  EnginesList : Trace → String → Except String WireListEnginesResponse
  EnginesGet : Trace → String → Except String WireEngine
  EnginesCreate : Trace → String → WireEngine → String → Except String WireOperation
  EnginesDelete : Trace → String → Except String WireOperation
  OperationsGet : Trace → String → Except String WireOperation

/-- The error of an answer, `none` when the call succeeded. -/
@[simp]
def errOf {α : Type} : Except String α → Option String
  | .error e => some e
  | .ok _ => none

/-- The effect of `call.Do()`: the answer, and the trace extended by this call. -/
def doCall {α : Type} (answer : Except String α) (call : Call) (tr : Trace) :
    Except String α × Trace :=
  (answer, tr ++ [{ call := call, err := errOf answer }])

/-! ## client.go: data model -/

/-- The `Config` of client.go. -/
structure Config where
  ProjectID : String
  Location : String
  Collection : String
  UseServiceAccount : Bool := false
  Format : String := ""
  deriving DecidableEq, Repr

/-- The `GeminiClient` of client.go. -/
structure GeminiClient where
  service : Service
  config : Config

/-- The `SearchEngineConfig` of client.go. -/
structure SearchEngineConfig where
  SearchTier : String
  SearchAddOns : Option (List String)
  deriving DecidableEq, Repr

/-- The `Engine` of client.go. -/
structure Engine where
  Name : String
  DisplayName : String
  SolutionType : String
  IndustryVertical : String
  AppType : String
  CreateTime : String
  DataStoreIds : Option (List String)
  SearchEngineConfig : Option SearchEngineConfig
  CommonConfig : Option (List (String × String))
  Features : Option (List (String × String))
  deriving DecidableEq, Repr

/-- The `BillingEstimation` of client.go. -/
structure BillingEstimation where
  UnstructuredDataSize : Int
  UnstructuredDataUpdateTime : String
  deriving DecidableEq, Repr

/-- The `DataStore` of client.go. -/
structure DataStore where
  Name : String
  DisplayName : String
  IndustryVertical : String
  ContentConfig : String
  CreateTime : String
  SolutionTypes : Option (List String)
  AclEnabled : Bool
  BillingEstimation : Option BillingEstimation
  DocumentProcessingConfig : Option (List (String × String))
  Schema : Option (List (String × String))
  deriving DecidableEq, Repr

/-- The `Document` of client.go. -/
structure Document where
  ID : String
  Content : Option (List (String × String))
  IndexTime : String
  deriving DecidableEq, Repr

/-- The `CreateResult` of client.go; absent fields of a Go literal are zero values. -/
structure CreateResult where
  EngineName : String := ""
  DataStoreName : String := ""
  ImportOperation : Option (List (String × String)) := none
  Status : String := ""
  Error : String := ""
  deriving DecidableEq, Repr

/-- The `DeleteResult` of client.go. -/
structure DeleteResult where
  Status : String := ""
  Message : String := ""
  deriving DecidableEq, Repr

/-! ## datastores.go -/

/-- The `convertDataStore` of datastores.go. -/
def convertDataStore (ds : WireDataStore) : DataStore :=
  { Name := ds.Name
    DisplayName := ds.DisplayName
    IndustryVertical := ds.IndustryVertical
    ContentConfig := ds.ContentConfig
    CreateTime := ds.CreateTime
    SolutionTypes := ds.SolutionTypes
    AclEnabled := ds.AclEnabled
    BillingEstimation :=
      match ds.BillingEstimation with
      | some b => some { UnstructuredDataSize := b.UnstructuredDataSize
                         UnstructuredDataUpdateTime := b.UnstructuredDataUpdateTime }
      | none => none
    DocumentProcessingConfig := some []
    Schema := none }

/-- The `convertDocument` of datastores.go. -/
def convertDocument (doc : WireDocument) : Document :=
  { ID := doc.Id, Content := some [], IndexTime := doc.IndexTime }

/-- Go's `var out []T; for _, x := range xs { out = append(out, f(x)) }`: the result
is `nil` when the loop body never runs. -/
def appendEach {α β : Type} (f : α → β) (xs : Option (List α)) : Option (List β) :=
  match xs with
  | none => none
  | some [] => none
  | some (x :: rest) => some (f x :: rest.map f)

/-- The `ListDataStores` of datastores.go. -/
def ListDataStores (c : GeminiClient) (tr : Trace) :
    (Option (List DataStore) × Option String) × Trace :=
  let parent := "projects/" ++ c.config.ProjectID ++ "/locations/" ++ c.config.Location
  match doCall (c.service.DataStoresList tr parent) (Call.DataStoresList parent) tr with
  | (.error err, tr1) => ((none, some ("failed to list data stores: " ++ err)), tr1)
  | (.ok response, tr1) => ((appendEach convertDataStore response.DataStores, none), tr1)

/-- The `GetDataStoreDetails` of datastores.go. -/
def GetDataStoreDetails (c : GeminiClient) (dataStoreName : String) (tr : Trace) :
    (Option DataStore × Option String) × Trace :=
  match doCall (c.service.DataStoresGet tr dataStoreName) (Call.DataStoresGet dataStoreName) tr with
  | (.error err, tr1) => ((none, some ("failed to get data store details: " ++ err)), tr1)
  | (.ok dataStore, tr1) => ((some (convertDataStore dataStore), none), tr1)

/-- The `GetDataStoreSchema` of datastores.go. -/
def GetDataStoreSchema (c : GeminiClient) (dataStoreName : String) (tr : Trace) :
    (Option (List (String × String)) × Option String) × Trace :=
  let schemaName := dataStoreName ++ "/schemas/default_schema"
  match doCall (c.service.SchemasGet tr schemaName) (Call.SchemasGet schemaName) tr with
  | (.error err, tr1) => ((none, some ("failed to get data store schema: " ++ err)), tr1)
  | (.ok schema, tr1) =>
    let schemaMap : List (String × String) := []
    let schemaMap := if schema.Name ≠ "" then schemaMap ++ [("name", schema.Name)] else schemaMap
    ((some schemaMap, none), tr1)

/-- The `CreateDataStoreFromGCS` of datastores.go. -/
def CreateDataStoreFromGCS (c : GeminiClient)
    (dataStoreID displayName gcsURI dataSchema reconciliationMode : String) (tr : Trace) :
    (Option CreateResult × Option String) × Trace :=
  let collectionName := "projects/" ++ c.config.ProjectID ++ "/locations/" ++ c.config.Location
    ++ "/collections/" ++ c.config.Collection
  let dataStoreConfig : WireDataStore :=
    { DisplayName := displayName
      IndustryVertical := "GENERIC"
      SolutionTypes := some ["SOLUTION_TYPE_SEARCH"]
      ContentConfig := "CONTENT_REQUIRED" }
  match doCall (c.service.DataStoresCreate tr collectionName dataStoreConfig dataStoreID)
      (Call.DataStoresCreate collectionName dataStoreConfig dataStoreID) tr with
  | (.error err, tr1) =>
    ((some { Status := "error", Error := "Failed to create data store: " ++ err }, none), tr1)
  | (.ok _, tr1) =>
    let actualDataStoreName := "projects/" ++ c.config.ProjectID ++ "/locations/"
      ++ c.config.Location ++ "/collections/" ++ c.config.Collection ++ "/dataStores/" ++ dataStoreID
    let branchName := actualDataStoreName ++ "/branches/default_branch"
    let importConfig : WireImportDocumentsRequest :=
      { GcsSource := some { InputUris := some [gcsURI], DataSchema := dataSchema }
        ReconciliationMode := reconciliationMode }
    match doCall (c.service.DocumentsImport tr1 branchName importConfig)
        (Call.DocumentsImport branchName importConfig) tr1 with
    | (.error err, tr2) =>
      ((some { Status := "error", Error := "Failed to import documents: " ++ err }, none), tr2)
    | (.ok _, tr2) =>
      ((some { DataStoreName := actualDataStoreName
               ImportOperation := some [("name", "import-operation")]
               Status := "success" }, none), tr2)

/-- The `ListDocuments` of datastores.go. -/
def ListDocuments (c : GeminiClient) (dataStoreName branch : String) (tr : Trace) :
    (Option (List Document) × Option String) × Trace :=
  let branchName := dataStoreName ++ "/branches/" ++ branch
  match doCall (c.service.DocumentsList tr branchName) (Call.DocumentsList branchName) tr with
  | (.error err, tr1) => ((none, some ("failed to list documents: " ++ err)), tr1)
  | (.ok response, tr1) => ((appendEach convertDocument response.Documents, none), tr1)

/-- The `DeleteDataStore` of datastores.go. -/
def DeleteDataStore (c : GeminiClient) (dataStoreName : String) (tr : Trace) :
    (Option DeleteResult × Option String) × Trace :=
  match doCall (c.service.DataStoresDelete tr dataStoreName)
      (Call.DataStoresDelete dataStoreName) tr with
  | (.error err, tr1) =>
    ((some { Status := "error", Message := "Failed to delete data store: " ++ err }, none), tr1)
  | (.ok _, tr1) =>
    ((some { Status := "success", Message := "Data store deleted successfully" }, none), tr1)

/-! ## engines.go -/

/-- The `convertEngine` of engines.go. -/
def convertEngine (engine : WireEngine) : Engine :=
  let commonConfig : List (String × String) := []
  let commonConfig :=
    match engine.CommonConfig with
    | some cc => commonConfig ++ [("companyName", cc.CompanyName)]
    | none => commonConfig
  { Name := engine.Name
    DisplayName := engine.DisplayName
    SolutionType := engine.SolutionType
    IndustryVertical := engine.IndustryVertical
    AppType := engine.AppType
    CreateTime := engine.CreateTime
    DataStoreIds := engine.DataStoreIds
    SearchEngineConfig := none
    CommonConfig := some commonConfig
    Features := engine.Features }

/-- The `ListEngines` of engines.go. -/
def ListEngines (c : GeminiClient) (collectionID : String) (tr : Trace) :
    (Option (List Engine) × Option String) × Trace :=
  let parent := "projects/" ++ c.config.ProjectID ++ "/locations/" ++ c.config.Location
    ++ "/collections/" ++ collectionID
  match doCall (c.service.EnginesList tr parent) (Call.EnginesList parent) tr with
  | (.error err, tr1) => ((none, some ("failed to list engines: " ++ err)), tr1)
  | (.ok response, tr1) => ((appendEach convertEngine response.Engines, none), tr1)

/-- The `GetEngineDetails` of engines.go. -/
def GetEngineDetails (c : GeminiClient) (engineName : String) (tr : Trace) :
    (Option Engine × Option String) × Trace :=
  match doCall (c.service.EnginesGet tr engineName) (Call.EnginesGet engineName) tr with
  | (.error err, tr1) => ((none, some ("failed to get engine details: " ++ err)), tr1)
  | (.ok engine, tr1) => ((some (convertEngine engine), none), tr1)

/-- The values stored in the `map[string]interface{}` built by `GetEngineFullConfig`:
an `*Engine` or a `[]interface{}` of `*DataStore`. -/
inductive ConfigValue where
  | engine (e : Engine)
  | list (l : List DataStore)
  deriving DecidableEq, Repr

/-- The `map[string]interface{}` returned by `GetEngineFullConfig`. -/
abbrev ConfigMap := List (String × ConfigValue)

/-- Go's `m[key]`. -/
def ConfigMap.get (m : ConfigMap) (key : String) : Option ConfigValue :=
  match m with
  | [] => none
  | (k, v) :: rest => if k = key then some v else ConfigMap.get rest key

/-- Go's `m[key] = value`. -/
def ConfigMap.set (m : ConfigMap) (key : String) (value : ConfigValue) : ConfigMap :=
  match m with
  | [] => [(key, value)]
  | (k, v) :: rest => if k = key then (k, value) :: rest else (k, v) :: ConfigMap.set rest key value

/-- The loop `for _, dsID := range engine.DataStoreIds` of `GetEngineFullConfig`, over
the ids still to visit. `none` is a run-time panic (a failed type assertion or a nil
dereference). -/
def GetEngineFullConfig.loop (c : GeminiClient) :
    List String → ConfigMap → Trace → Option (ConfigMap × Trace)
  | [], config, tr => some (config, tr)
  | dsID :: rest, config, tr =>
    let dsName := "projects/" ++ c.config.ProjectID ++ "/locations/" ++ c.config.Location
      ++ "/collections/" ++ c.config.Collection ++ "/dataStores/" ++ dsID
    match GetDataStoreDetails c dsName tr with
    | ((_, some _), tr1) => GetEngineFullConfig.loop c rest config tr1
    | ((none, none), _) => none
    | ((some ds, none), tr1) =>
      match GetDataStoreSchema c dsName tr1 with
      | ((schema, err), tr2) =>
        let ds := if err = none ∧ schema ≠ none then { ds with Schema := schema } else ds
        match config.get "data_stores" with
        | some (.list l) =>
          GetEngineFullConfig.loop c rest (config.set "data_stores" (.list (l ++ [ds]))) tr2
        | _ => none

/-- The `GetEngineFullConfig` of engines.go. `none` is a run-time panic. -/
def GetEngineFullConfig (c : GeminiClient) (engineName : String) (tr : Trace) :
    Option ((Option ConfigMap × Option String) × Trace) :=
  match GetEngineDetails c engineName tr with
  | ((_, some err), tr1) => some ((none, some err), tr1)
  | ((none, none), _) => none
  | ((some engine, none), tr1) =>
    let config : ConfigMap := [("engine", .engine engine), ("data_stores", .list [])]
    match GetEngineFullConfig.loop c (engine.DataStoreIds.getD []) config tr1 with
    | none => none
    | some (config, tr2) => some ((some config, none), tr2)

/-- Go's `len` of a slice that may be nil. -/
def sliceLen {α : Type} (xs : Option (List α)) : Nat :=
  match xs with
  | none => 0
  | some l => l.length

set_option linter.unusedVariables false in
/-- The `CreateSearchEngine` of engines.go; `searchTier` is not used, as in the source. -/
def CreateSearchEngine (c : GeminiClient) (engineID displayName : String)
    (dataStoreIDs : Option (List String)) (searchTier : String) (tr : Trace) :
    (Option CreateResult × Option String) × Trace :=
  let collectionName := "projects/" ++ c.config.ProjectID ++ "/locations/" ++ c.config.Location
    ++ "/collections/" ++ c.config.Collection
  let engineConfig : WireEngine :=
    { DisplayName := displayName
      SolutionType := "SOLUTION_TYPE_SEARCH"
      IndustryVertical := "GENERIC"
      AppType := "APP_TYPE_INTRANET"
      CommonConfig := some { CompanyName := "BCBSMA" } }
  let engineConfig :=
    if sliceLen dataStoreIDs > 0 then { engineConfig with DataStoreIds := dataStoreIDs }
    else engineConfig
  match doCall (c.service.EnginesCreate tr collectionName engineConfig engineID)
      (Call.EnginesCreate collectionName engineConfig engineID) tr with
  | (.error err, tr1) =>
    ((some { Status := "error", Error := "Failed to create engine: " ++ err }, none), tr1)
  | (.ok _, tr1) =>
    let actualEngineName := "projects/" ++ c.config.ProjectID ++ "/locations/"
      ++ c.config.Location ++ "/collections/" ++ c.config.Collection ++ "/engines/" ++ engineID
    ((some { EngineName := actualEngineName, Status := "success" }, none), tr1)

/-- The `DeleteEngine` of engines.go. -/
def DeleteEngine (c : GeminiClient) (engineName : String) (tr : Trace) :
    (Option DeleteResult × Option String) × Trace :=
  match doCall (c.service.EnginesDelete tr engineName) (Call.EnginesDelete engineName) tr with
  | (.error err, tr1) =>
    ((some { Status := "error", Message := "Failed to delete engine: " ++ err }, none), tr1)
  | (.ok _, tr1) =>
    ((some { Status := "success", Message := "Engine deleted successfully" }, none), tr1)

/-! ## datastores.go, engines.go: operation pollers -/

/-- Go's `time.Second`, in nanoseconds. -/
def Second : Nat := 1000000000

/-- Go's `time.Minute`. -/
def Minute : Nat := 60 * Second

/-- The `maxWaitTime` of the pollers. -/
def maxWaitTime : Nat := 5 * Minute

/-- The `checkInterval` of the pollers. -/
def checkInterval : Nat := 5 * Second

/-- What a poller acts on: the remote calls made so far, the monotonic clock
(nanoseconds), the durations passed to `time.Sleep` and the clock readings at which a
status fetch was started, oldest first. -/
structure World where
  trace : Trace
  now : Nat
  slept : List Nat := []
  fetchedAt : List Nat := []
  deriving DecidableEq, Repr

/-- The `for time.Since(startTime) < maxWaitTime` loop of `waitForDataStoreCreation`.
A remote call made after the calls `tr` takes `latency tr` nanoseconds; `time.Sleep`
advances the clock by its argument. The first argument bounds the number of iterations;
`none` means the bound was reached. -/
def waitForDataStoreCreation.loop (c : GeminiClient) (latency : Trace → Nat)
    (operationName dataStoreID : String) (startTime : Nat) :
    Nat → World → Option ((String × Option String) × World)
  | 0, _ => none
  | fuel + 1, w =>
    if w.now - startTime < maxWaitTime then
      match doCall (c.service.OperationsGet w.trace operationName)
          (Call.OperationsGet operationName) w.trace with
      | (.error err, tr1) =>
        some (("", some ("failed to check operation status: " ++ err)),
          { w with trace := tr1, now := w.now + latency w.trace
                   fetchedAt := w.fetchedAt ++ [w.now] })
      | (.ok operation, tr1) =>
        let w1 : World := { w with trace := tr1, now := w.now + latency w.trace
                                   fetchedAt := w.fetchedAt ++ [w.now] }
        if operation.Done then
          match operation.Error with
          | some e => some (("", some ("data store creation failed: " ++ e)), w1)
          | none =>
            if operation.Response ≠ none then
              some (("projects/" ++ c.config.ProjectID ++ "/locations/" ++ c.config.Location
                ++ "/collections/" ++ c.config.Collection ++ "/dataStores/" ++ dataStoreID,
                none), w1)
            else
              some (("projects/" ++ c.config.ProjectID ++ "/locations/" ++ c.config.Location
                ++ "/collections/" ++ c.config.Collection ++ "/dataStores/" ++ dataStoreID,
                none), w1)
        else
          waitForDataStoreCreation.loop c latency operationName dataStoreID startTime fuel
            { w1 with now := w1.now + checkInterval, slept := w1.slept ++ [checkInterval] }
    else some (("", some "timeout waiting for data store creation"), w)

/-- The number of iterations granted to the poller loops: every iteration that does not
return sleeps `checkInterval`, so the loop condition fails after at most
`maxWaitTime / checkInterval` of them. -/
def pollFuel : Nat := maxWaitTime / checkInterval + 1

/-- The `waitForDataStoreCreation` of datastores.go. -/
def waitForDataStoreCreation (c : GeminiClient) (latency : Trace → Nat)
    (operationName dataStoreID : String) (w : World) :
    Option ((String × Option String) × World) :=
  let startTime := w.now
  waitForDataStoreCreation.loop c latency operationName dataStoreID startTime pollFuel w

/-- The `for time.Since(startTime) < maxWaitTime` loop of `waitForEngineCreation`. -/
def waitForEngineCreation.loop (c : GeminiClient) (latency : Trace → Nat)
    (operationName engineID : String) (startTime : Nat) :
    Nat → World → Option ((String × Option String) × World)
  | 0, _ => none
  | fuel + 1, w =>
    if w.now - startTime < maxWaitTime then
      match doCall (c.service.OperationsGet w.trace operationName)
          (Call.OperationsGet operationName) w.trace with
      | (.error err, tr1) =>
        some (("", some ("failed to check operation status: " ++ err)),
          { w with trace := tr1, now := w.now + latency w.trace
                   fetchedAt := w.fetchedAt ++ [w.now] })
      | (.ok operation, tr1) =>
        let w1 : World := { w with trace := tr1, now := w.now + latency w.trace
                                   fetchedAt := w.fetchedAt ++ [w.now] }
        if operation.Done then
          match operation.Error with
          | some e => some (("", some ("engine creation failed: " ++ e)), w1)
          | none =>
            if operation.Response ≠ none then
              some (("projects/" ++ c.config.ProjectID ++ "/locations/" ++ c.config.Location
                ++ "/collections/" ++ c.config.Collection ++ "/engines/" ++ engineID,
                none), w1)
            else
              some (("projects/" ++ c.config.ProjectID ++ "/locations/" ++ c.config.Location
                ++ "/collections/" ++ c.config.Collection ++ "/engines/" ++ engineID,
                none), w1)
        else
          waitForEngineCreation.loop c latency operationName engineID startTime fuel
            { w1 with now := w1.now + checkInterval, slept := w1.slept ++ [checkInterval] }
    else some (("", some "timeout waiting for engine creation"), w)

/-- The `waitForEngineCreation` of engines.go. -/
def waitForEngineCreation (c : GeminiClient) (latency : Trace → Nat)
    (operationName engineID : String) (w : World) :
    Option ((String × Option String) × World) :=
  let startTime := w.now
  waitForEngineCreation.loop c latency operationName engineID startTime pollFuel w

/-! ## client.go: NewGeminiClient -/

/-- The environment variables read by `getDefaultLocation`; `os.Getenv` gives `""` for
an unset variable. -/
structure Env where
  AGENTSPACE_LOCATION : String := ""
  GCLOUD_LOCATION : String := ""
  deriving DecidableEq, Repr

/-- The `getDefaultLocation` of client.go. -/
def getDefaultLocation (env : Env) : String :=
  if env.AGENTSPACE_LOCATION ≠ "" then env.AGENTSPACE_LOCATION
  else if env.GCLOUD_LOCATION ≠ "" then env.GCLOUD_LOCATION
  else "us"

/-- Go's `strings.Contains(s, sep)` for a one-character `sep`. -/
def stringsContains (s : String) (sep : Char) : Bool :=
  s.data.contains sep

/-- Go's `strings.Split` on characters, for a one-character separator: the pieces
between the occurrences of `sep`. -/
def splitChars (sep : Char) : List Char → List (List Char)
  | [] => [[]]
  | ch :: rest =>
    if ch = sep then [] :: splitChars sep rest
    else
      match splitChars sep rest with
      | [] => [[ch]]
      | first :: more => (ch :: first) :: more

/-- Go's `strings.Split(s, sep)` for a one-character `sep`. -/
def stringsSplit (s : String) (sep : Char) : List String :=
  (splitChars sep s.data).map String.mk

/-- Lines 112-123 of `NewGeminiClient`: the API endpoint for a location. -/
def NewGeminiClient.baseURL (location : String) : String :=
  if location = "global" then "https://discoveryengine.googleapis.com/"
  else
    let regionPrefix := location
    let regionPrefix :=
      if stringsContains location '-' then (stringsSplit location '-').headD "" else regionPrefix
    "https://" ++ regionPrefix ++ "-discoveryengine.googleapis.com/"

/-- The credentials option handed to `discoveryengine.NewService`. -/
inductive Credentials where
  | WithScopes (scope : String)
  | WithTokenSource (quotaProject : String)
  deriving DecidableEq, Repr

/-- The options handed to `discoveryengine.NewService`. -/
structure ServiceOptions where
  credentials : Credentials
  WithEndpoint : String
  deriving DecidableEq, Repr

/-- The `NewGeminiClient` of client.go. `getDefaultProject` is the outcome of the
project lookup (environment, gcloud, credentials) and `NewService` is
`discoveryengine.NewService`. `getUserTokenSource` always returns a nil error, so its
error branch is not reachable. -/
def NewGeminiClient (env : Env) (getDefaultProject : Except String String)
    (NewService : ServiceOptions → Except String Service) (config : Config) :
    Option GeminiClient × Option String :=
  let config :=
    if config.Location = "" then { config with Location := getDefaultLocation env } else config
  let resolved : Except String Config :=
    if config.ProjectID = "" then
      match getDefaultProject with
      | .error err => .error err
      | .ok projectID => .ok { config with ProjectID := projectID }
    else .ok config
  match resolved with
  | .error err => (none, some ("project ID is required: " ++ err))
  | .ok config =>
    let baseURL := NewGeminiClient.baseURL config.Location
    if config.UseServiceAccount then
      match NewService { credentials := .WithScopes "https://www.googleapis.com/auth/cloud-platform"
                         WithEndpoint := baseURL } with
      | .error err => (none, some ("failed to create service with ADC: " ++ err))
      | .ok service => (some { service := service, config := config }, none)
    else
      match NewService { credentials := .WithTokenSource config.ProjectID
                         WithEndpoint := baseURL } with
      | .error err => (none, some ("failed to create service with user credentials: " ++ err))
      | .ok service => (some { service := service, config := config }, none)

/-! ## internal/provider: framework values -/

/-- The `types.String` of terraform-plugin-framework. -/
inductive TfString where
  | null
  | unknown
  | value (s : String)
  deriving DecidableEq, Repr

/-- The `ValueString` of `types.String`: the empty string for null and unknown. -/
def TfString.ValueString : TfString → String
  | .value s => s
  | _ => ""

/-- The `types.Bool` of terraform-plugin-framework. -/
inductive TfBool where
  | null
  | unknown
  | value (b : Bool)
  deriving DecidableEq, Repr

/-- The `ValueBool` of `types.Bool`: false for null and unknown. -/
def TfBool.ValueBool : TfBool → Bool
  | .value b => b
  | _ => false

/-- The `types.List` of terraform-plugin-framework, with string elements. -/
inductive TfList where
  | null
  | unknown
  | value (elements : List TfString)
  deriving DecidableEq, Repr

/-- The `IsNull` of `types.List`. -/
def TfList.IsNull : TfList → Bool
  | .null => true
  | _ => false

/-- The `Elements` of `types.List`: none for null and unknown. -/
def TfList.Elements : TfList → List TfString
  | .value elements => elements
  | _ => []

/-- The severity of a diagnostic. -/
inductive Severity where
  | Error
  | Warning
  deriving DecidableEq, Repr

/-- A diagnostic of terraform-plugin-framework. -/
structure Diagnostic where
  Severity : Severity
  Summary : String
  Detail : String
  deriving DecidableEq, Repr

/-- The `diag.Diagnostics` of terraform-plugin-framework. -/
abbrev Diagnostics := List Diagnostic

/-- The `HasError` of `diag.Diagnostics`. -/
def HasError (diags : Diagnostics) : Bool :=
  diags.any (fun d => d.Severity = .Error)

/-- The `AddError` of `diag.Diagnostics`. -/
def AddError (diags : Diagnostics) (summary detail : String) : Diagnostics :=
  diags ++ [{ Severity := .Error, Summary := summary, Detail := detail }]

/-- What `req.Plan.Get`, `req.State.Get` or `req.Config.Get` yields: the decoded model
and the diagnostics of the decoding. -/
structure Decoded (M : Type) where
  value : M
  diags : Diagnostics := []

/-- The `resource.CreateRequest` and `resource.UpdateRequest`: the plan. -/
structure PlanRequest (M : Type) where
  Plan : Decoded M

/-- The `resource.ReadRequest` and `resource.DeleteRequest`: the prior state. -/
structure StateRequest (M : Type) where
  State : Decoded M

/-- The response of a resource operation: the state to persist, `none` when the
resource is absent from it, and the diagnostics. `State.Set` of a model is taken to
succeed. -/
structure Response (M : Type) where
  State : Option M
  Diagnostics : Diagnostics := []
  deriving DecidableEq, Repr

/-! ## internal/provider/datastore_resource.go -/

/-- The `dataStoreResource` of datastore_resource.go. -/
structure dataStoreResource where
  client : GeminiClient

/-- The `dataStoreResourceModel` of datastore_resource.go. -/
structure dataStoreResourceModel where
  ID : TfString
  DataStoreID : TfString
  DisplayName : TfString
  GCSUri : TfString
  Name : TfString
  deriving DecidableEq, Repr

/-- The `Create` of `dataStoreResource`. `none` is a run-time panic (nil dereference). -/
def dataStoreResource.Create (r : dataStoreResource) (req : PlanRequest dataStoreResourceModel)
    (resp : Response dataStoreResourceModel) (tr : Trace) :
    Option (Response dataStoreResourceModel × Trace) :=
  let model := req.Plan.value
  let resp := { resp with Diagnostics := resp.Diagnostics ++ req.Plan.diags }
  if HasError resp.Diagnostics then some (resp, tr)
  else
    match CreateDataStoreFromGCS r.client model.DataStoreID.ValueString
        model.DisplayName.ValueString model.GCSUri.ValueString
        "DATA_SCHEMA_DOCUMENT" "INCREMENTAL" tr with
    | ((_, some err), tr1) =>
      let diags := AddError resp.Diagnostics "Error creating data store"
        ("Failed to create data store: " ++ err)
      some ({ resp with Diagnostics := diags }, tr1)
    | ((none, none), _) => none
    | ((some result, none), tr1) =>
      let model := { model with ID := .value model.DataStoreID.ValueString }
      let model := { model with Name := .value result.DataStoreName }
      some ({ resp with State := some model }, tr1)

/-- The `Read` of `dataStoreResource`. `resp.State` starts as the prior state; it is
only replaced by `State.Set`. `none` is a run-time panic (nil dereference). -/
def dataStoreResource.Read (r : dataStoreResource) (req : StateRequest dataStoreResourceModel)
    (resp : Response dataStoreResourceModel) (tr : Trace) :
    Option (Response dataStoreResourceModel × Trace) :=
  let model := req.State.value
  let resp := { resp with Diagnostics := resp.Diagnostics ++ req.State.diags }
  if HasError resp.Diagnostics then some (resp, tr)
  else
    let dataStoreName := "projects/" ++ r.client.config.ProjectID ++ "/locations/"
      ++ r.client.config.Location ++ "/collections/" ++ r.client.config.Collection
      ++ "/dataStores/" ++ model.DataStoreID.ValueString
    match GetDataStoreDetails r.client dataStoreName tr with
    | ((_, some err), tr1) =>
      let diags := AddError resp.Diagnostics "Error reading data store"
        ("Failed to read data store: " ++ err)
      some ({ resp with Diagnostics := diags }, tr1)
    | ((none, none), _) => none
    | ((some dataStore, none), tr1) =>
      let model := { model with DisplayName := .value dataStore.DisplayName }
      let model := { model with Name := .value dataStore.Name }
      some ({ resp with State := some model }, tr1)

/-- The `Update` of `dataStoreResource`. `none` is a run-time panic (nil dereference). -/
def dataStoreResource.Update (r : dataStoreResource) (req : PlanRequest dataStoreResourceModel)
    (resp : Response dataStoreResourceModel) (tr : Trace) :
    Option (Response dataStoreResourceModel × Trace) :=
  let model := req.Plan.value
  let resp := { resp with Diagnostics := resp.Diagnostics ++ req.Plan.diags }
  if HasError resp.Diagnostics then some (resp, tr)
  else
    match CreateDataStoreFromGCS r.client model.DataStoreID.ValueString
        model.DisplayName.ValueString model.GCSUri.ValueString
        "DATA_SCHEMA_DOCUMENT" "INCREMENTAL" tr with
    | ((_, some err), tr1) =>
      let diags := AddError resp.Diagnostics "Error updating data store"
        ("Failed to update data store: " ++ err)
      some ({ resp with Diagnostics := diags }, tr1)
    | ((none, none), _) => none
    | ((some result, none), tr1) =>
      let model := { model with Name := .value result.DataStoreName }
      some ({ resp with State := some model }, tr1)

/-- The `Delete` of `dataStoreResource`. -/
def dataStoreResource.Delete (r : dataStoreResource) (req : StateRequest dataStoreResourceModel)
    (resp : Response dataStoreResourceModel) (tr : Trace) :
    Response dataStoreResourceModel × Trace :=
  let model := req.State.value
  let resp := { resp with Diagnostics := resp.Diagnostics ++ req.State.diags }
  if HasError resp.Diagnostics then (resp, tr)
  else
    let dataStoreName := "projects/" ++ r.client.config.ProjectID ++ "/locations/"
      ++ r.client.config.Location ++ "/collections/" ++ r.client.config.Collection
      ++ "/dataStores/" ++ model.DataStoreID.ValueString
    match DeleteDataStore r.client dataStoreName tr with
    | ((_, some err), tr1) =>
      let diags := AddError resp.Diagnostics "Error deleting data store"
        ("Failed to delete data store: " ++ err)
      ({ resp with Diagnostics := diags }, tr1)
    | ((_, none), tr1) => ({ resp with State := none }, tr1)

/-! ## internal/provider/engine_resource.go -/

/-- The `engineResource` of engine_resource.go. -/
structure engineResource where
  client : GeminiClient

/-- The `engineResourceModel` of engine_resource.go. -/
structure engineResourceModel where
  ID : TfString
  EngineID : TfString
  DisplayName : TfString
  DataStores : TfList
  Name : TfString
  deriving DecidableEq, Repr

/-- The conversion of the data stores list in `Create` and `Update` of `engineResource`:
`var dataStoreIDs []string`, appended to for each element when the list is not null. -/
def engineResource.dataStoreIDs (model : engineResourceModel) : Option (List String) :=
  if !model.DataStores.IsNull then
    appendEach TfString.ValueString (some model.DataStores.Elements)
  else none

/-- The `Create` of `engineResource`. `none` is a run-time panic (nil dereference). -/
def engineResource.Create (r : engineResource) (req : PlanRequest engineResourceModel)
    (resp : Response engineResourceModel) (tr : Trace) :
    Option (Response engineResourceModel × Trace) :=
  let model := req.Plan.value
  let resp := { resp with Diagnostics := resp.Diagnostics ++ req.Plan.diags }
  if HasError resp.Diagnostics then some (resp, tr)
  else
    let dataStoreIDs := engineResource.dataStoreIDs model
    match CreateSearchEngine r.client model.EngineID.ValueString model.DisplayName.ValueString
        dataStoreIDs "SEARCH_TIER_ENTERPRISE" tr with
    | ((_, some err), tr1) =>
      let diags := AddError resp.Diagnostics "Error creating engine"
        ("Failed to create engine: " ++ err)
      some ({ resp with Diagnostics := diags }, tr1)
    | ((none, none), _) => none
    | ((some result, none), tr1) =>
      let model := { model with ID := .value model.EngineID.ValueString }
      let model := { model with Name := .value result.EngineName }
      some ({ resp with State := some model }, tr1)

/-- The `Read` of `engineResource`. `resp.State` starts as the prior state; it is only
replaced by `State.Set`. `none` is a run-time panic (nil dereference). -/
def engineResource.Read (r : engineResource) (req : StateRequest engineResourceModel)
    (resp : Response engineResourceModel) (tr : Trace) :
    Option (Response engineResourceModel × Trace) :=
  let model := req.State.value
  let resp := { resp with Diagnostics := resp.Diagnostics ++ req.State.diags }
  if HasError resp.Diagnostics then some (resp, tr)
  else
    let engineName := "projects/" ++ r.client.config.ProjectID ++ "/locations/"
      ++ r.client.config.Location ++ "/collections/" ++ r.client.config.Collection
      ++ "/engines/" ++ model.EngineID.ValueString
    match GetEngineDetails r.client engineName tr with
    | ((_, some err), tr1) =>
      let diags := AddError resp.Diagnostics "Error reading engine"
        ("Failed to read engine: " ++ err)
      some ({ resp with Diagnostics := diags }, tr1)
    | ((none, none), _) => none
    | ((some engine, none), tr1) =>
      let model := { model with DisplayName := .value engine.DisplayName }
      let model := { model with Name := .value engine.Name }
      some ({ resp with State := some model }, tr1)

/-- The `Update` of `engineResource`. `none` is a run-time panic (nil dereference). -/
def engineResource.Update (r : engineResource) (req : PlanRequest engineResourceModel)
    (resp : Response engineResourceModel) (tr : Trace) :
    Option (Response engineResourceModel × Trace) :=
  let model := req.Plan.value
  let resp := { resp with Diagnostics := resp.Diagnostics ++ req.Plan.diags }
  if HasError resp.Diagnostics then some (resp, tr)
  else
    let dataStoreIDs := engineResource.dataStoreIDs model
    match CreateSearchEngine r.client model.EngineID.ValueString model.DisplayName.ValueString
        dataStoreIDs "SEARCH_TIER_ENTERPRISE" tr with
    | ((_, some err), tr1) =>
      let diags := AddError resp.Diagnostics "Error updating engine"
        ("Failed to update engine: " ++ err)
      some ({ resp with Diagnostics := diags }, tr1)
    | ((none, none), _) => none
    | ((some result, none), tr1) =>
      let model := { model with Name := .value result.EngineName }
      some ({ resp with State := some model }, tr1)

/-- The `Delete` of `engineResource`. -/
def engineResource.Delete (r : engineResource) (req : StateRequest engineResourceModel)
    (resp : Response engineResourceModel) (tr : Trace) :
    Response engineResourceModel × Trace :=
  let model := req.State.value
  let resp := { resp with Diagnostics := resp.Diagnostics ++ req.State.diags }
  if HasError resp.Diagnostics then (resp, tr)
  else
    let engineName := "projects/" ++ r.client.config.ProjectID ++ "/locations/"
      ++ r.client.config.Location ++ "/collections/" ++ r.client.config.Collection
      ++ "/engines/" ++ model.EngineID.ValueString
    match DeleteEngine r.client engineName tr with
    | ((_, some err), tr1) =>
      let diags := AddError resp.Diagnostics "Error deleting engine"
        ("Failed to delete engine: " ++ err)
      ({ resp with Diagnostics := diags }, tr1)
    | ((_, none), tr1) => ({ resp with State := none }, tr1)

/-! ## internal/provider/provider.go -/

/-- The `gemctlProvider` of provider.go. -/
structure gemctlProvider where
  client : Option GeminiClient

/-- The `gemctlProviderModel` of provider.go. -/
structure gemctlProviderModel where
  ProjectID : TfString
  Location : TfString
  Collection : TfString
  UseServiceAccount : TfBool
  deriving DecidableEq, Repr

/-- The `provider.ConfigureRequest`: the provider configuration. -/
structure ConfigureRequest where
  Config : Decoded gemctlProviderModel

/-- The `provider.ConfigureResponse`. -/
structure ConfigureResponse where
  Diagnostics : Diagnostics := []
  DataSourceData : Option GeminiClient := none
  ResourceData : Option GeminiClient := none

/-- Lines 70-84 of `Configure`: the client configuration built from the provider
configuration. -/
def gemctlProvider.Configure.clientConfig (config : gemctlProviderModel) : Config :=
  let location := config.Location.ValueString
  let location := if location = "" then "us" else location
  let collection := config.Collection.ValueString
  let collection := if collection = "" then "default_collection" else collection
  { ProjectID := config.ProjectID.ValueString
    Location := location
    Collection := collection
    UseServiceAccount := config.UseServiceAccount.ValueBool }

/-- The `Configure` of `gemctlProvider`, with the environment of `NewGeminiClient`. -/
def gemctlProvider.Configure (env : Env) (getDefaultProject : Except String String)
    (NewService : ServiceOptions → Except String Service) (p : gemctlProvider)
    (req : ConfigureRequest) (resp : ConfigureResponse) : gemctlProvider × ConfigureResponse :=
  let config := req.Config.value
  let resp := { resp with Diagnostics := resp.Diagnostics ++ req.Config.diags }
  if HasError resp.Diagnostics then (p, resp)
  else
    let clientConfig := gemctlProvider.Configure.clientConfig config
    match NewGeminiClient env getDefaultProject NewService clientConfig with
    | (_, some err) =>
      let diags := AddError resp.Diagnostics "Unable to create Gemini client" err
      (p, { resp with Diagnostics := diags })
    | (geminiClient, none) =>
      ({ p with client := geminiClient },
        { resp with DataSourceData := geminiClient, ResourceData := geminiClient })

/-! ## Vocabulary of the properties -/

/-- The remote calls issued by an operation that started at trace `before` and ended
at trace `after`. -/
def issued (before after : Trace) : Trace :=
  after.drop before.length

/-- The substring of a location before its first hyphen, the whole location when it
has none (the region prefix in the words of the specification). -/
def beforeFirstHyphen (location : String) : String :=
  String.mk (location.data.takeWhile (fun ch => ch ≠ '-'))

/-- Whether a call is a data-store detail read. -/
def isDetailRead : Call → Bool
  | .DataStoresGet _ => true
  | _ => false

/-- The number of data-store detail reads in a trace. -/
def detailReads (t : Trace) : Nat :=
  t.countP (fun ev => isDetailRead ev.call)

/-- The number of failed data-store detail reads in a trace. -/
def failedDetailReads (t : Trace) : Nat :=
  t.countP (fun ev => isDetailRead ev.call && ev.err.isSome)

/-- The data stores an engine resolves to, in the words of the specification: visit the
referenced ids in order; read each data store at its deterministic name; drop the id
when the read fails; otherwise keep the converted data store, with its schema when the
schema lookup succeeds. Returned with the remote calls issued on the way. -/
def resolveDataStores (c : GeminiClient) : List String → Trace → List DataStore × Trace
  | [], _ => ([], [])
  | dsID :: rest, tr =>
    let dsName := "projects/" ++ c.config.ProjectID ++ "/locations/" ++ c.config.Location
      ++ "/collections/" ++ c.config.Collection ++ "/dataStores/" ++ dsID
    match c.service.DataStoresGet tr dsName with
    | .error e =>
      let read : Event := { call := .DataStoresGet dsName, err := some e }
      let r := resolveDataStores c rest (tr ++ [read])
      (r.1, read :: r.2)
    | .ok w =>
      let read : Event := { call := .DataStoresGet dsName, err := none }
      let schemaName := dsName ++ "/schemas/default_schema"
      match c.service.SchemasGet (tr ++ [read]) schemaName with
      | .error e =>
        let lookup : Event := { call := .SchemasGet schemaName, err := some e }
        let r := resolveDataStores c rest (tr ++ [read] ++ [lookup])
        (convertDataStore w :: r.1, read :: lookup :: r.2)
      | .ok schema =>
        let lookup : Event := { call := .SchemasGet schemaName, err := none }
        let r := resolveDataStores c rest (tr ++ [read] ++ [lookup])
        ({ convertDataStore w with
            Schema := some (if schema.Name ≠ "" then [("name", schema.Name)] else []) } :: r.1,
          read :: lookup :: r.2)

/-- A status fetch of the operation `operationName` that the remote API answered. -/
def statusFetch (operationName : String) : Event :=
  { call := .OperationsGet operationName, err := none }

/-- The time between the start of a poller and the moment its poll number `j` (from 0)
is due, when the polls before it were answered: `j` fetches, each followed by one sleep
of `checkInterval`. -/
def elapsedBefore (latency : Trace → Nat) (operationName : String) (tr : Trace) : Nat → Nat
  | 0 => 0
  | j + 1 => elapsedBefore latency operationName tr j
      + latency (tr ++ List.replicate j (statusFetch operationName)) + checkInterval

/-- The world in which poll number `j` is due, when the poller started in `w` and the
polls before it were answered and not done. -/
def pollWorld (latency : Trace → Nat) (operationName : String) (w : World) (j : Nat) : World :=
  { trace := w.trace ++ List.replicate j (statusFetch operationName)
    now := w.now + elapsedBefore latency operationName w.trace j
    slept := w.slept ++ List.replicate j checkInterval
    fetchedAt := w.fetchedAt
      ++ (List.range j).map (fun i => w.now + elapsedBefore latency operationName w.trace i) }

/-- Both poller loops, with what they differ in as parameters: the text put before the
operation error, the timeout text and the deterministic resource name. -/
def pollLoop (c : GeminiClient) (latency : Trace → Nat) (operationName : String)
    (failed timeout name : String) (startTime : Nat) :
    Nat → World → Option ((String × Option String) × World)
  | 0, _ => none
  | fuel + 1, w =>
    if w.now - startTime < maxWaitTime then
      match c.service.OperationsGet w.trace operationName with
      | .error err =>
        some (("", some ("failed to check operation status: " ++ err)),
          { trace := w.trace ++ [{ call := .OperationsGet operationName, err := some err }]
            now := w.now + latency w.trace
            slept := w.slept
            fetchedAt := w.fetchedAt ++ [w.now] })
      | .ok operation =>
        if operation.Done then
          match operation.Error with
          | some e =>
            some (("", some (failed ++ e)),
              { trace := w.trace ++ [statusFetch operationName]
                now := w.now + latency w.trace
                slept := w.slept
                fetchedAt := w.fetchedAt ++ [w.now] })
          | none =>
            some ((name, none),
              { trace := w.trace ++ [statusFetch operationName]
                now := w.now + latency w.trace
                slept := w.slept
                fetchedAt := w.fetchedAt ++ [w.now] })
        else
          pollLoop c latency operationName failed timeout name startTime fuel
            { trace := w.trace ++ [statusFetch operationName]
              now := w.now + latency w.trace + checkInterval
              slept := w.slept ++ [checkInterval]
              fetchedAt := w.fetchedAt ++ [w.now] }
    else some (("", some timeout), w)

/-- The resource name carried by the response payload of an operation, if the response
is present and names a resource. -/
def responseResourceName (operation : WireOperation) : Option String :=
  match operation.Response with
  | none => none
  | some fields => (fields.find? (fun kv => kv.1 = "name")).map (fun kv => kv.2)

/-- The names of the data stores whose details a trace reads, in order. -/
def detailReadNames (t : Trace) : List String :=
  t.filterMap (fun ev =>
    match ev.call with
    | .DataStoresGet name => some name
    | _ => none)

/-- The number of import calls in a trace. -/
def importCalls (t : Trace) : Nat :=
  t.countP (fun ev =>
    match ev.call with
    | .DocumentsImport _ _ => true
    | _ => false)

/-- The filter-map of the referenced ids, without the schemas: visit the ids in order;
read each data store at its deterministic name; drop the id when the read fails and keep
the converted data store otherwise. The schema lookup that follows a successful read is
a remote call too, so it is part of the history the later reads are answered from. -/
def convertedReads (c : GeminiClient) : List String → Trace → List DataStore
  | [], _ => []
  | dsID :: rest, tr =>
    let dsName := "projects/" ++ c.config.ProjectID ++ "/locations/" ++ c.config.Location
      ++ "/collections/" ++ c.config.Collection ++ "/dataStores/" ++ dsID
    match c.service.DataStoresGet tr dsName with
    | .error e => convertedReads c rest (tr ++ [{ call := .DataStoresGet dsName, err := some e }])
    | .ok w =>
      let read : Event := { call := .DataStoresGet dsName, err := none }
      let schemaName := dsName ++ "/schemas/default_schema"
      let lookup : Event :=
        { call := .SchemasGet schemaName
          err := errOf (c.service.SchemasGet (tr ++ [read]) schemaName) }
      convertDataStore w :: convertedReads c rest (tr ++ [read] ++ [lookup])

/-- A data store with its Schema field unset. -/
def withoutSchema (ds : DataStore) : DataStore :=
  { ds with Schema := none }

/-! ## Sample remote services -/

/-- A remote API on which every call succeeds with an empty body. -/
def okService : Service :=
  { DataStoresList := fun _ _ => .ok {}
    DataStoresGet := fun _ name => .ok { Name := name }
    SchemasGet := fun _ name => .ok { Name := name }
    DataStoresCreate := fun _ _ _ _ => .ok {}
    DocumentsImport := fun _ _ _ => .ok {}
    DocumentsList := fun _ _ => .ok {}
    DataStoresDelete := fun _ _ => .ok {}
    EnginesList := fun _ _ => .ok {}
    EnginesGet := fun _ name => .ok { Name := name, DataStoreIds := some ["ds1", "ds2"] }
    EnginesCreate := fun _ _ _ _ => .ok {}
    EnginesDelete := fun _ _ => .ok {}
    OperationsGet := fun _ _ => .ok {} }

/-- A remote API on which every call fails with `boom`. -/
def failService : Service :=
  { DataStoresList := fun _ _ => .error "boom"
    DataStoresGet := fun _ _ => .error "boom"
    SchemasGet := fun _ _ => .error "boom"
    DataStoresCreate := fun _ _ _ _ => .error "boom"
    DocumentsImport := fun _ _ _ => .error "boom"
    DocumentsList := fun _ _ => .error "boom"
    DataStoresDelete := fun _ _ => .error "boom"
    EnginesList := fun _ _ => .error "boom"
    EnginesGet := fun _ _ => .error "boom"
    EnginesCreate := fun _ _ _ _ => .error "boom"
    EnginesDelete := fun _ _ => .error "boom"
    OperationsGet := fun _ _ => .error "boom" }

/-- A remote API on which the container create succeeds and the import fails. -/
def importFailService : Service :=
  { okService with DocumentsImport := fun _ _ _ => .error "quota" }

/-- A remote API whose engines reference `ds1`, `ds2` and `ds3`, on which the detail
read of `ds2` fails and the schema lookup of `ds3` fails. -/
def partialService : Service :=
  { okService with
    EnginesGet := fun _ name => .ok { Name := name, DataStoreIds := some ["ds1", "ds2", "ds3"] }
    DataStoresGet := fun _ name =>
      if name = "projects/p/locations/us/collections/default_collection/dataStores/ds2" then
        .error "not found"
      else .ok { Name := name, DisplayName := "store" }
    SchemasGet := fun _ name =>
      if name = "projects/p/locations/us/collections/default_collection/dataStores/ds3/schemas/default_schema"
      then .error "no schema"
      else .ok { Name := name } }

/-- A `discoveryengine.NewService` that only reaches the `us` regional endpoint. -/
def usNewService (options : ServiceOptions) : Except String Service :=
  if options.WithEndpoint = "https://us-discoveryengine.googleapis.com/" then .ok okService
  else .error "no such host"

/-- A remote API whose operations are not done while fewer than `k` calls were made and
done with an error from then on. -/
def opFailsAfter (k : Nat) : Service :=
  { okService with
    OperationsGet := fun tr _ =>
      if tr.length < k then .ok { Done := false }
      else .ok { Done := true, Error := some "quota exceeded" } }

/-- A remote API whose operations are never done. -/
def neverDoneService : Service :=
  { okService with OperationsGet := fun _ _ => .ok { Done := false } }

/-- A remote API whose operations are done at once, with a response that names the
data store `other`. -/
def renamedService : Service :=
  { okService with
    OperationsGet := fun _ _ =>
      .ok { Done := true
            Response := some [("name",
              "projects/p/locations/us/collections/default_collection/dataStores/other")] } }

/-- A remote API whose operations are done at once, with a response that names the
engine `other`. -/
def renamedEngineService : Service :=
  { okService with
    OperationsGet := fun _ _ =>
      .ok { Done := true
            Response := some [("name",
              "projects/p/locations/us/collections/default_collection/engines/other")] } }

/-- Remote calls that take no time. -/
def instant : Trace → Nat := fun _ => 0

/-- The world at the start of the sample runs. -/
def sampleWorld : World := { trace := [], now := 0 }

/-- A client configuration in region `us-central1`. -/
def centralConfig : Config :=
  { ProjectID := "p", Location := "us-central1", Collection := "default_collection" }

/-- The client configuration of the end-to-end scenario. -/
def sampleConfig : Config :=
  { ProjectID := "p", Location := "us", Collection := "default_collection" }

/-- A client on which every remote call succeeds. -/
def okClient : GeminiClient := { service := okService, config := sampleConfig }

/-- A client on which every remote call fails. -/
def failClient : GeminiClient := { service := failService, config := sampleConfig }

/-- A client whose operations stay not done for 60 status fetches and then fail. -/
def slowFailClient : GeminiClient := { service := opFailsAfter 60, config := sampleConfig }

/-- A client whose operations stay not done for 2 status fetches and then fail. -/
def quickFailClient : GeminiClient := { service := opFailsAfter 2, config := sampleConfig }

/-- A client whose operations are never done. -/
def neverDoneClient : GeminiClient := { service := neverDoneService, config := sampleConfig }

/-- A client of `renamedService`. -/
def renamedClient : GeminiClient := { service := renamedService, config := sampleConfig }

/-- A client of `renamedEngineService`. -/
def renamedEngineClient : GeminiClient :=
  { service := renamedEngineService, config := sampleConfig }

/-- A provider configuration that sets only the project. -/
def bareProviderModel : gemctlProviderModel :=
  { ProjectID := .value "p", Location := .null, Collection := .null, UseServiceAccount := .null }

/-- A plan for the data store `ds1`. -/
def dataStorePlan : dataStoreResourceModel :=
  { ID := .unknown, DataStoreID := .value "ds1", DisplayName := .value "Docs"
    GCSUri := .value "gs://bucket/docs/*", Name := .unknown }

/-- The stored state of the data store `ds1`. -/
def dataStoreState : dataStoreResourceModel :=
  { ID := .value "ds1", DataStoreID := .value "ds1", DisplayName := .value "Docs"
    GCSUri := .value "gs://bucket/docs/*"
    Name := .value "projects/p/locations/us/collections/default_collection/dataStores/ds1" }

/-- A plan for the engine `eng1` over the data store `ds1`. -/
def enginePlan : engineResourceModel :=
  { ID := .unknown, EngineID := .value "eng1", DisplayName := .value "Search"
    DataStores := .value [.value "ds1"], Name := .unknown }

/-- The stored state of the engine `eng1`. -/
def engineState : engineResourceModel :=
  { ID := .value "eng1", EngineID := .value "eng1", DisplayName := .value "Search"
    DataStores := .value [.value "ds1"]
    Name := .value "projects/p/locations/us/collections/default_collection/engines/eng1" }

/-- A client of `partialService`. -/
def partialClient : GeminiClient := { service := partialService, config := sampleConfig }

/-- A client on which only the import fails. -/
def importFailClient : GeminiClient := { service := importFailService, config := sampleConfig }

/-! ## Basic facts about traces -/

@[simp]
theorem issued_append (before new : Trace) : issued before (before ++ new) = new := by
  simp [issued]

theorem issued_append_append (before new₁ new₂ : Trace) :
    issued before (before ++ new₁ ++ new₂) = new₁ ++ new₂ := by
  simp [issued, List.append_assoc]

/-! ## Create and delete -/

/-- C1: when every remote call it issues succeeds, `CreateDataStoreFromGCS` returns
Status "success" with DataStoreName `projects/p/locations/l/collections/c/dataStores/id`,
and `CreateSearchEngine` returns Status "success" with EngineName
`projects/p/locations/l/collections/c/engines/id`, for every remote service, hence
whatever the response bodies are. -/
theorem C1_create_success_names (c : GeminiClient)
    (id displayName gcsURI dataSchema reconciliationMode searchTier : String)
    (dataStoreIDs : Option (List String)) (tr : Trace) :
    ((∀ ev ∈ issued tr
          (CreateDataStoreFromGCS c id displayName gcsURI dataSchema reconciliationMode tr).2,
        ev.err = none) →
      ∃ r, (CreateDataStoreFromGCS c id displayName gcsURI dataSchema reconciliationMode tr).1
            = (some r, none) ∧
        r.Status = "success" ∧
        r.DataStoreName = "projects/" ++ c.config.ProjectID ++ "/locations/" ++ c.config.Location
          ++ "/collections/" ++ c.config.Collection ++ "/dataStores/" ++ id) ∧
    ((∀ ev ∈ issued tr (CreateSearchEngine c id displayName dataStoreIDs searchTier tr).2,
        ev.err = none) →
      ∃ r, (CreateSearchEngine c id displayName dataStoreIDs searchTier tr).1 = (some r, none) ∧
        r.Status = "success" ∧
        r.EngineName = "projects/" ++ c.config.ProjectID ++ "/locations/" ++ c.config.Location
          ++ "/collections/" ++ c.config.Collection ++ "/engines/" ++ id) := by
  constructor
  · simp only [CreateDataStoreFromGCS, doCall]
    generalize c.service.DataStoresCreate tr _ _ _ = a
    cases a with
    | error e => simp
    | ok op =>
      simp only
      generalize c.service.DocumentsImport _ _ _ = b
      cases b with
      | error e => simp
      | ok op2 => simp
  · simp only [CreateSearchEngine, doCall]
    generalize c.service.EnginesCreate tr _ _ _ = a
    cases a with
    | error e => simp
    | ok op => simp

theorem C1_create_success_names_witness :
    (∀ ev ∈ issued []
        (CreateDataStoreFromGCS okClient "ds1" "Docs" "gs://bucket/docs/*" "content" "INCREMENTAL"
          []).2, ev.err = none) ∧
    (∀ ev ∈ issued [] (CreateSearchEngine okClient "eng1" "Search" (some ["ds1"]) "tier" []).2,
        ev.err = none) ∧
    (∃ r, (CreateDataStoreFromGCS okClient "ds1" "Docs" "gs://bucket/docs/*" "content"
            "INCREMENTAL" []).1 = (some r, none) ∧
      r.Status = "success" ∧
      r.DataStoreName = "projects/p/locations/us/collections/default_collection/dataStores/ds1") ∧
    (∃ r, (CreateSearchEngine okClient "eng1" "Search" (some ["ds1"]) "tier" []).1
            = (some r, none) ∧
      r.Status = "success" ∧
      r.EngineName = "projects/p/locations/us/collections/default_collection/engines/eng1") :=
  ⟨by decide, by decide,
    (C1_create_success_names okClient "ds1" "Docs" "gs://bucket/docs/*" "content" "INCREMENTAL"
      "tier" (some ["ds1"]) []).1 (by decide),
    (C1_create_success_names okClient "eng1" "Search" "gs://bucket/docs/*" "content" "INCREMENTAL"
      "tier" (some ["ds1"]) []).2 (by decide)⟩

/-- C2: a `CreateResult` with Status "error" returned by `CreateDataStoreFromGCS` or
`CreateSearchEngine` has empty DataStoreName and EngineName and no ImportOperation; in
particular so when the container create succeeded and the import failed. -/
theorem C2_error_result_carries_no_name (c : GeminiClient)
    (id displayName gcsURI dataSchema reconciliationMode searchTier : String)
    (dataStoreIDs : Option (List String)) (tr : Trace) :
    (∀ r, (CreateDataStoreFromGCS c id displayName gcsURI dataSchema reconciliationMode tr).1.1
          = some r →
        r.Status = "error" →
        r.DataStoreName = "" ∧ r.EngineName = "" ∧ r.ImportOperation = none) ∧
    (∀ r, (CreateSearchEngine c id displayName dataStoreIDs searchTier tr).1.1 = some r →
        r.Status = "error" →
        r.DataStoreName = "" ∧ r.EngineName = "" ∧ r.ImportOperation = none) ∧
    (∀ created imported e,
        issued tr (CreateDataStoreFromGCS c id displayName gcsURI dataSchema reconciliationMode
          tr).2 = [{ call := created, err := none }, { call := imported, err := some e }] →
        ∃ r, (CreateDataStoreFromGCS c id displayName gcsURI dataSchema reconciliationMode tr).1.1
              = some r ∧
          r.Status = "error" ∧
          r.DataStoreName = "" ∧ r.EngineName = "" ∧ r.ImportOperation = none) := by
  refine ⟨?_, ?_, ?_⟩
  · simp only [CreateDataStoreFromGCS, doCall]
    generalize c.service.DataStoresCreate tr _ _ _ = a
    cases a with
    | error e =>
      intro r h _
      simp only [Option.some.injEq] at h
      subst h
      exact ⟨rfl, rfl, rfl⟩
    | ok op =>
      simp only
      generalize c.service.DocumentsImport _ _ _ = b
      cases b with
      | error e =>
        intro r h _
        simp only [Option.some.injEq] at h
        subst h
        exact ⟨rfl, rfl, rfl⟩
      | ok op2 =>
        intro r h hs
        simp only [Option.some.injEq] at h
        subst h
        simp at hs
  · simp only [CreateSearchEngine, doCall]
    generalize c.service.EnginesCreate tr _ _ _ = a
    cases a with
    | error e =>
      intro r h _
      simp only [Option.some.injEq] at h
      subst h
      exact ⟨rfl, rfl, rfl⟩
    | ok op =>
      intro r h hs
      simp only [Option.some.injEq] at h
      subst h
      simp at hs
  · simp only [CreateDataStoreFromGCS, doCall]
    generalize c.service.DataStoresCreate tr _ _ _ = a
    cases a with
    | error e => simp
    | ok op =>
      simp only
      generalize c.service.DocumentsImport _ _ _ = b
      cases b with
      | error e =>
        intro _ _ _ _
        exact ⟨_, rfl, rfl, rfl, rfl, rfl⟩
      | ok op2 => simp

theorem C2_error_result_carries_no_name_witness :
    (CreateDataStoreFromGCS importFailClient "ds1" "Docs" "gs://bucket/docs/*" "content"
        "INCREMENTAL" []).1.1
      = some { Status := "error", Error := "Failed to import documents: quota" } ∧
    (CreateSearchEngine failClient "eng1" "Search" none "tier" []).1.1
      = some { Status := "error", Error := "Failed to create engine: boom" } ∧
    (({ Status := "error", Error := "Failed to import documents: quota" } : CreateResult).DataStoreName
        = "" ∧
      ({ Status := "error", Error := "Failed to import documents: quota" } : CreateResult).EngineName
        = "" ∧
      ({ Status := "error", Error := "Failed to import documents: quota" }
        : CreateResult).ImportOperation = none) ∧
    (({ Status := "error", Error := "Failed to create engine: boom" } : CreateResult).DataStoreName
        = "" ∧
      ({ Status := "error", Error := "Failed to create engine: boom" } : CreateResult).EngineName
        = "" ∧
      ({ Status := "error", Error := "Failed to create engine: boom" }
        : CreateResult).ImportOperation = none) :=
  ⟨by decide, by decide,
    (C2_error_result_carries_no_name importFailClient "ds1" "Docs" "gs://bucket/docs/*" "content"
      "INCREMENTAL" "tier" none []).1 _ (by decide) (by decide),
    (C2_error_result_carries_no_name failClient "eng1" "Search" "gs://bucket/docs/*" "content"
      "INCREMENTAL" "tier" none []).2.1 _ (by decide) (by decide)⟩

/-- C3: in `CreateDataStoreFromGCS`, when the first remote call, which is the
create-container call with the fixed defaults, fails with `e`, it is the only remote call
issued (no import call follows) and the result is a `CreateResult` with Status "error"
and Error "Failed to create data store: " followed by `e`, with a nil Go error. -/
theorem C3_create_failure_skips_import (c : GeminiClient)
    (id displayName gcsURI dataSchema reconciliationMode : String) (tr : Trace)
    (first : Event) (e : String)
    (hfirst : (issued tr
      (CreateDataStoreFromGCS c id displayName gcsURI dataSchema reconciliationMode tr).2).head?
        = some first)
    (hfail : first.err = some e) :
    issued tr (CreateDataStoreFromGCS c id displayName gcsURI dataSchema reconciliationMode tr).2
      = [first] ∧
    first.call = Call.DataStoresCreate
      ("projects/" ++ c.config.ProjectID ++ "/locations/" ++ c.config.Location
        ++ "/collections/" ++ c.config.Collection)
      { DisplayName := displayName, IndustryVertical := "GENERIC",
        SolutionTypes := some ["SOLUTION_TYPE_SEARCH"], ContentConfig := "CONTENT_REQUIRED" }
      id ∧
    (∀ ev ∈ issued tr
        (CreateDataStoreFromGCS c id displayName gcsURI dataSchema reconciliationMode tr).2,
      ∀ parent body, ev.call ≠ Call.DocumentsImport parent body) ∧
    (CreateDataStoreFromGCS c id displayName gcsURI dataSchema reconciliationMode tr).1
      = (some { Status := "error", Error := "Failed to create data store: " ++ e }, none) := by
  revert hfirst
  simp only [CreateDataStoreFromGCS, doCall]
  generalize c.service.DataStoresCreate tr _ _ _ = a
  cases a with
  | error e' =>
    intro hfirst
    simp only [issued_append, List.head?_cons, Option.some.injEq] at hfirst
    subst hfirst
    simp only [errOf, Option.some.injEq] at hfail
    subst hfail
    simp
  | ok op =>
    simp only
    generalize c.service.DocumentsImport _ _ _ = b
    cases b with
    | error e' =>
      intro hfirst
      simp only [List.append_assoc, issued_append, List.singleton_append, List.head?_cons,
        Option.some.injEq] at hfirst
      subst hfirst
      simp at hfail
    | ok op2 =>
      intro hfirst
      simp only [List.append_assoc, issued_append, List.singleton_append, List.head?_cons,
        Option.some.injEq] at hfirst
      subst hfirst
      simp at hfail

theorem C3_create_failure_skips_import_witness :
    (issued [] (CreateDataStoreFromGCS failClient "ds1" "Docs" "gs://bucket/docs/*" "content"
        "INCREMENTAL" []).2).head?
      = some { call := Call.DataStoresCreate "projects/p/locations/us/collections/default_collection"
                { DisplayName := "Docs", IndustryVertical := "GENERIC",
                  SolutionTypes := some ["SOLUTION_TYPE_SEARCH"],
                  ContentConfig := "CONTENT_REQUIRED" } "ds1",
               err := some "boom" } ∧
    (CreateDataStoreFromGCS failClient "ds1" "Docs" "gs://bucket/docs/*" "content" "INCREMENTAL"
        []).1
      = (some { Status := "error", Error := "Failed to create data store: boom" }, none) :=
  ⟨by decide,
    (C3_create_failure_skips_import failClient "ds1" "Docs" "gs://bucket/docs/*" "content"
      "INCREMENTAL" [] _ "boom" rfl rfl).2.2.2⟩

/-- C4: in `CreateDataStoreFromGCS`, when the first remote call (the create-container
call) succeeds and the second (the import call) fails with `e`, the result has Status
"error" and Error "Failed to import documents: " followed by `e`, and the remote calls
issued are exactly that create followed by that import: no delete and no retry. -/
theorem C4_import_failure_no_rollback (c : GeminiClient)
    (id displayName gcsURI dataSchema reconciliationMode : String) (tr : Trace)
    (first second : Event) (e : String)
    (hfirst : (issued tr
      (CreateDataStoreFromGCS c id displayName gcsURI dataSchema reconciliationMode tr).2)[0]?
        = some first)
    (hok : first.err = none)
    (hsecond : (issued tr
      (CreateDataStoreFromGCS c id displayName gcsURI dataSchema reconciliationMode tr).2)[1]?
        = some second)
    (hfail : second.err = some e) :
    (CreateDataStoreFromGCS c id displayName gcsURI dataSchema reconciliationMode tr).1
      = (some { Status := "error", Error := "Failed to import documents: " ++ e }, none) ∧
    issued tr (CreateDataStoreFromGCS c id displayName gcsURI dataSchema reconciliationMode tr).2
      = [first, second] ∧
    first.call = Call.DataStoresCreate
      ("projects/" ++ c.config.ProjectID ++ "/locations/" ++ c.config.Location
        ++ "/collections/" ++ c.config.Collection)
      { DisplayName := displayName, IndustryVertical := "GENERIC",
        SolutionTypes := some ["SOLUTION_TYPE_SEARCH"], ContentConfig := "CONTENT_REQUIRED" }
      id ∧
    second.call = Call.DocumentsImport
      ("projects/" ++ c.config.ProjectID ++ "/locations/" ++ c.config.Location
        ++ "/collections/" ++ c.config.Collection ++ "/dataStores/" ++ id
        ++ "/branches/default_branch")
      { GcsSource := some { InputUris := some [gcsURI], DataSchema := dataSchema },
        ReconciliationMode := reconciliationMode } ∧
    (∀ ev ∈ issued tr
        (CreateDataStoreFromGCS c id displayName gcsURI dataSchema reconciliationMode tr).2,
      ∀ name, ev.call ≠ Call.DataStoresDelete name) := by
  revert hfirst hsecond
  simp only [CreateDataStoreFromGCS, doCall]
  generalize c.service.DataStoresCreate tr _ _ _ = a
  cases a with
  | error e' =>
    intro hfirst
    simp only [issued_append, List.getElem?_cons_zero, Option.some.injEq] at hfirst
    subst hfirst
    simp at hok
  | ok op =>
    simp only
    generalize c.service.DocumentsImport _ _ _ = b
    cases b with
    | error e' =>
      intro hfirst hsecond
      simp only [List.append_assoc, issued_append, List.singleton_append,
        List.getElem?_cons_zero, Option.some.injEq] at hfirst
      simp only [List.append_assoc, issued_append, List.singleton_append,
        List.getElem?_cons_succ, List.getElem?_cons_zero, Option.some.injEq] at hsecond
      subst hfirst
      subst hsecond
      simp only [errOf, Option.some.injEq] at hfail
      subst hfail
      simp
    | ok op2 =>
      intro hfirst hsecond
      simp only [List.append_assoc, issued_append, List.singleton_append,
        List.getElem?_cons_succ, List.getElem?_cons_zero, Option.some.injEq] at hsecond
      subst hsecond
      simp at hfail

theorem C4_import_failure_no_rollback_witness :
    (issued [] (CreateDataStoreFromGCS importFailClient "ds1" "Docs" "gs://bucket/docs/*"
        "content" "INCREMENTAL" []).2)
      = [{ call := Call.DataStoresCreate "projects/p/locations/us/collections/default_collection"
                { DisplayName := "Docs", IndustryVertical := "GENERIC",
                  SolutionTypes := some ["SOLUTION_TYPE_SEARCH"],
                  ContentConfig := "CONTENT_REQUIRED" } "ds1",
           err := none },
         { call := Call.DocumentsImport
             "projects/p/locations/us/collections/default_collection/dataStores/ds1/branches/default_branch"
             { GcsSource := some { InputUris := some ["gs://bucket/docs/*"], DataSchema := "content" },
               ReconciliationMode := "INCREMENTAL" },
           err := some "quota" }] ∧
    (CreateDataStoreFromGCS importFailClient "ds1" "Docs" "gs://bucket/docs/*" "content"
        "INCREMENTAL" []).1
      = (some { Status := "error", Error := "Failed to import documents: quota" }, none) :=
  ⟨by decide,
    (C4_import_failure_no_rollback importFailClient "ds1" "Docs" "gs://bucket/docs/*" "content"
      "INCREMENTAL" [] _ _ "quota" rfl rfl rfl rfl).1⟩

/-- C5: `CreateDataStoreFromGCS`, `CreateSearchEngine`, `DeleteDataStore` and
`DeleteEngine` always return a non-nil result with a nil error; the Status of the result
is "error" exactly when one of the remote calls the operation issued failed, and
"success" exactly when none did. -/
theorem C5_create_delete_report_through_status (c : GeminiClient)
    (id displayName gcsURI dataSchema reconciliationMode searchTier name : String)
    (dataStoreIDs : Option (List String)) (tr : Trace) :
    (∃ r, (CreateDataStoreFromGCS c id displayName gcsURI dataSchema reconciliationMode tr).1
          = (some r, none) ∧
      (r.Status = "error" ↔ ∃ ev ∈ issued tr
        (CreateDataStoreFromGCS c id displayName gcsURI dataSchema reconciliationMode tr).2,
          ev.err ≠ none) ∧
      (r.Status = "success" ↔ ∀ ev ∈ issued tr
        (CreateDataStoreFromGCS c id displayName gcsURI dataSchema reconciliationMode tr).2,
          ev.err = none)) ∧
    (∃ r, (CreateSearchEngine c id displayName dataStoreIDs searchTier tr).1 = (some r, none) ∧
      (r.Status = "error" ↔ ∃ ev ∈ issued tr
        (CreateSearchEngine c id displayName dataStoreIDs searchTier tr).2, ev.err ≠ none) ∧
      (r.Status = "success" ↔ ∀ ev ∈ issued tr
        (CreateSearchEngine c id displayName dataStoreIDs searchTier tr).2, ev.err = none)) ∧
    (∃ r, (DeleteDataStore c name tr).1 = (some r, none) ∧
      (r.Status = "error" ↔ ∃ ev ∈ issued tr (DeleteDataStore c name tr).2, ev.err ≠ none) ∧
      (r.Status = "success" ↔ ∀ ev ∈ issued tr (DeleteDataStore c name tr).2, ev.err = none)) ∧
    (∃ r, (DeleteEngine c name tr).1 = (some r, none) ∧
      (r.Status = "error" ↔ ∃ ev ∈ issued tr (DeleteEngine c name tr).2, ev.err ≠ none) ∧
      (r.Status = "success" ↔ ∀ ev ∈ issued tr (DeleteEngine c name tr).2, ev.err = none)) := by
  refine ⟨?_, ?_, ?_, ?_⟩
  · simp only [CreateDataStoreFromGCS, doCall]
    generalize c.service.DataStoresCreate tr _ _ _ = a
    cases a with
    | error e => simp
    | ok op =>
      simp only
      generalize c.service.DocumentsImport _ _ _ = b
      cases b with
      | error e => simp
      | ok op2 => simp
  · simp only [CreateSearchEngine, doCall]
    generalize c.service.EnginesCreate tr _ _ _ = a
    cases a with
    | error e => simp
    | ok op => simp
  · simp only [DeleteDataStore, doCall]
    generalize c.service.DataStoresDelete tr _ = a
    cases a with
    | error e => simp
    | ok op => simp
  · simp only [DeleteEngine, doCall]
    generalize c.service.EnginesDelete tr _ = a
    cases a with
    | error e => simp
    | ok op => simp

/-! ## Read and list -/

/-- C6: each of `ListDataStores`, `GetDataStoreDetails`, `GetDataStoreSchema`,
`ListDocuments`, `ListEngines` and `GetEngineDetails` issues exactly one remote call and
returns a non-nil error with a nil result if and only if that call fails (the error is
the remote error behind the operation's message); when the call succeeds the error is
nil and the result is the conversion of the response. -/
theorem C6_read_list_propagate_failure (c : GeminiClient) (name branch collectionID : String)
    (tr : Trace) :
    (issued tr (ListDataStores c tr).2 = [Event.mk
        (Call.DataStoresList ("projects/" ++ c.config.ProjectID ++ "/locations/" ++ c.config.Location))
        (errOf (c.service.DataStoresList tr ("projects/" ++ c.config.ProjectID ++ "/locations/" ++ c.config.Location)))] ∧
      ((ListDataStores c tr).1.2 ≠ none ∧
        (ListDataStores c tr).1.1 = none ↔
        ∃ e, c.service.DataStoresList tr ("projects/" ++ c.config.ProjectID ++ "/locations/" ++ c.config.Location) = .error e) ∧
      (∀ e, c.service.DataStoresList tr ("projects/" ++ c.config.ProjectID ++ "/locations/" ++ c.config.Location) = .error e →
        (ListDataStores c tr).1 = (none, some ("failed to list data stores: " ++ e))) ∧
      (∀ response, c.service.DataStoresList tr ("projects/" ++ c.config.ProjectID ++ "/locations/" ++ c.config.Location) = .ok response →
        (ListDataStores c tr).1 = (appendEach convertDataStore response.DataStores, none))) ∧
    (issued tr (GetDataStoreDetails c name tr).2 = [Event.mk
        (Call.DataStoresGet name)
        (errOf (c.service.DataStoresGet tr name))] ∧
      ((GetDataStoreDetails c name tr).1.2 ≠ none ∧
        (GetDataStoreDetails c name tr).1.1 = none ↔
        ∃ e, c.service.DataStoresGet tr name = .error e) ∧
      (∀ e, c.service.DataStoresGet tr name = .error e →
        (GetDataStoreDetails c name tr).1 = (none, some ("failed to get data store details: " ++ e))) ∧
      (∀ response, c.service.DataStoresGet tr name = .ok response →
        (GetDataStoreDetails c name tr).1 = (some (convertDataStore response), none))) ∧
    (issued tr (GetDataStoreSchema c name tr).2 = [Event.mk
        (Call.SchemasGet (name ++ "/schemas/default_schema"))
        (errOf (c.service.SchemasGet tr (name ++ "/schemas/default_schema")))] ∧
      ((GetDataStoreSchema c name tr).1.2 ≠ none ∧
        (GetDataStoreSchema c name tr).1.1 = none ↔
        ∃ e, c.service.SchemasGet tr (name ++ "/schemas/default_schema") = .error e) ∧
      (∀ e, c.service.SchemasGet tr (name ++ "/schemas/default_schema") = .error e →
        (GetDataStoreSchema c name tr).1 = (none, some ("failed to get data store schema: " ++ e))) ∧
      (∀ response, c.service.SchemasGet tr (name ++ "/schemas/default_schema") = .ok response →
        (GetDataStoreSchema c name tr).1 = (some (if response.Name ≠ "" then [("name", response.Name)] else []), none))) ∧
    (issued tr (ListDocuments c name branch tr).2 = [Event.mk
        (Call.DocumentsList (name ++ "/branches/" ++ branch))
        (errOf (c.service.DocumentsList tr (name ++ "/branches/" ++ branch)))] ∧
      ((ListDocuments c name branch tr).1.2 ≠ none ∧
        (ListDocuments c name branch tr).1.1 = none ↔
        ∃ e, c.service.DocumentsList tr (name ++ "/branches/" ++ branch) = .error e) ∧
      (∀ e, c.service.DocumentsList tr (name ++ "/branches/" ++ branch) = .error e →
        (ListDocuments c name branch tr).1 = (none, some ("failed to list documents: " ++ e))) ∧
      (∀ response, c.service.DocumentsList tr (name ++ "/branches/" ++ branch) = .ok response →
        (ListDocuments c name branch tr).1 = (appendEach convertDocument response.Documents, none))) ∧
    (issued tr (ListEngines c collectionID tr).2 = [Event.mk
        (Call.EnginesList ("projects/" ++ c.config.ProjectID ++ "/locations/" ++ c.config.Location
        ++ "/collections/" ++ collectionID))
        (errOf (c.service.EnginesList tr ("projects/" ++ c.config.ProjectID ++ "/locations/" ++ c.config.Location
        ++ "/collections/" ++ collectionID)))] ∧
      ((ListEngines c collectionID tr).1.2 ≠ none ∧
        (ListEngines c collectionID tr).1.1 = none ↔
        ∃ e, c.service.EnginesList tr ("projects/" ++ c.config.ProjectID ++ "/locations/" ++ c.config.Location
        ++ "/collections/" ++ collectionID) = .error e) ∧
      (∀ e, c.service.EnginesList tr ("projects/" ++ c.config.ProjectID ++ "/locations/" ++ c.config.Location
        ++ "/collections/" ++ collectionID) = .error e →
        (ListEngines c collectionID tr).1 = (none, some ("failed to list engines: " ++ e))) ∧
      (∀ response, c.service.EnginesList tr ("projects/" ++ c.config.ProjectID ++ "/locations/" ++ c.config.Location
        ++ "/collections/" ++ collectionID) = .ok response →
        (ListEngines c collectionID tr).1 = (appendEach convertEngine response.Engines, none))) ∧
    (issued tr (GetEngineDetails c name tr).2 = [Event.mk
        (Call.EnginesGet name)
        (errOf (c.service.EnginesGet tr name))] ∧
      ((GetEngineDetails c name tr).1.2 ≠ none ∧
        (GetEngineDetails c name tr).1.1 = none ↔
        ∃ e, c.service.EnginesGet tr name = .error e) ∧
      (∀ e, c.service.EnginesGet tr name = .error e →
        (GetEngineDetails c name tr).1 = (none, some ("failed to get engine details: " ++ e))) ∧
      (∀ response, c.service.EnginesGet tr name = .ok response →
        (GetEngineDetails c name tr).1 = (some (convertEngine response), none))) := by
  refine ⟨?_, ?_, ?_, ?_, ?_, ?_⟩
  · simp only [ListDataStores, doCall]
    generalize c.service.DataStoresList tr _ = a
    cases a with
    | error e => simp
    | ok response => simp
  · simp only [GetDataStoreDetails, doCall]
    generalize c.service.DataStoresGet tr _ = a
    cases a with
    | error e => simp
    | ok response => simp
  · simp only [GetDataStoreSchema, doCall]
    generalize c.service.SchemasGet tr _ = a
    cases a with
    | error e => simp
    | ok response => simp
  · simp only [ListDocuments, doCall]
    generalize c.service.DocumentsList tr _ = a
    cases a with
    | error e => simp
    | ok response => simp
  · simp only [ListEngines, doCall]
    generalize c.service.EnginesList tr _ = a
    cases a with
    | error e => simp
    | ok response => simp
  · simp only [GetEngineDetails, doCall]
    generalize c.service.EnginesGet tr _ = a
    cases a with
    | error e => simp
    | ok response => simp

/-! ## Full-configuration resolver -/

theorem loop_eq_resolveDataStores (c : GeminiClient) (E : ConfigValue) :
    ∀ (ids : List String) (acc : List DataStore) (tr : Trace),
      GetEngineFullConfig.loop c ids [("engine", E), ("data_stores", .list acc)] tr
        = some ([("engine", E), ("data_stores", .list (acc ++ (resolveDataStores c ids tr).1))],
            tr ++ (resolveDataStores c ids tr).2) := by
  intro ids
  induction ids with
  | nil =>
    intro acc tr
    simp [GetEngineFullConfig.loop, resolveDataStores]
  | cons d rest ih =>
    intro acc tr
    simp only [GetEngineFullConfig.loop, resolveDataStores, GetDataStoreDetails, doCall]
    generalize c.service.DataStoresGet tr _ = a
    cases a with
    | error e =>
      simp only [errOf]
      rw [ih]
      simp
    | ok w =>
      simp only [GetDataStoreSchema, doCall, errOf]
      generalize c.service.SchemasGet _ _ = b
      cases b with
      | error e =>
        simp only [errOf, ConfigMap.get, ConfigMap.set]
        simp only [show ("engine" = "data_stores") = False from by decide, if_false, if_true,
          reduceCtorEq, and_false, false_and]
        rw [ih]
        simp
      | ok schema =>
        simp only [errOf, ConfigMap.get, ConfigMap.set]
        simp only [show ("engine" = "data_stores") = False from by decide, if_false, if_true,
          ne_eq, not_false_eq_true, and_self, reduceCtorEq]
        rw [ih]
        simp

@[simp]
theorem failedDetailReads_nil : failedDetailReads [] = 0 := rfl

@[simp]
theorem detailReads_nil : detailReads [] = 0 := rfl

theorem failedDetailReads_cons (ev : Event) (t : Trace) :
    failedDetailReads (ev :: t)
      = failedDetailReads t + (if isDetailRead ev.call && ev.err.isSome then 1 else 0) := by
  simp [failedDetailReads, List.countP_cons]

theorem detailReads_cons (ev : Event) (t : Trace) :
    detailReads (ev :: t) = detailReads t + (if isDetailRead ev.call then 1 else 0) := by
  simp [detailReads, List.countP_cons]

theorem resolveDataStores_counts (c : GeminiClient) :
    ∀ (ids : List String) (tr : Trace),
      (resolveDataStores c ids tr).1.length + failedDetailReads (resolveDataStores c ids tr).2
          = ids.length ∧
        detailReads (resolveDataStores c ids tr).2 = ids.length := by
  intro ids
  induction ids with
  | nil =>
    intro tr
    simp [resolveDataStores]
  | cons d rest ih =>
    intro tr
    simp only [resolveDataStores]
    generalize c.service.DataStoresGet tr _ = a
    cases a with
    | error e =>
      simp only
      generalize tr ++ _ = T
      have h := ih T
      simp only [failedDetailReads_cons, detailReads_cons, isDetailRead, Option.isSome,
        Bool.and_self, if_true, List.length_cons]
      omega
    | ok w =>
      simp only
      generalize c.service.SchemasGet _ _ = b
      cases b with
      | error e =>
        simp only
        generalize tr ++ _ = T
        generalize T ++ _ = T'
        have h := ih T'
        simp only [failedDetailReads_cons, detailReads_cons, isDetailRead, Option.isSome,
          Bool.and_false, Bool.false_and, if_true, if_false, List.length_cons, Bool.false_eq_true]
        omega
      | ok schema =>
        simp only
        generalize tr ++ _ = T
        generalize T ++ _ = T'
        have h := ih T'
        simp only [failedDetailReads_cons, detailReads_cons, isDetailRead, Option.isSome,
          Bool.and_false, Bool.false_and, if_true, if_false, List.length_cons, Bool.false_eq_true]
        omega

theorem resolveDataStores_append (c : GeminiClient) :
    ∀ (xs ys : List String) (tr : Trace),
      resolveDataStores c (xs ++ ys) tr
        = ((resolveDataStores c xs tr).1
              ++ (resolveDataStores c ys (tr ++ (resolveDataStores c xs tr).2)).1,
            (resolveDataStores c xs tr).2
              ++ (resolveDataStores c ys (tr ++ (resolveDataStores c xs tr).2)).2) := by
  intro xs
  induction xs with
  | nil =>
    intro ys tr
    simp [resolveDataStores]
  | cons d rest ih =>
    intro ys tr
    rw [List.cons_append]
    simp only [resolveDataStores]
    generalize c.service.DataStoresGet tr _ = a
    cases a with
    | error e =>
      simp only
      rw [ih]
      simp
    | ok w =>
      simp only
      generalize c.service.SchemasGet _ _ = b
      cases b with
      | error e =>
        simp only
        rw [ih]
        simp
      | ok schema =>
        simp only
        rw [ih]
        simp

theorem GetEngineFullConfig_of_engine_ok (c : GeminiClient) (engineName : String) (tr : Trace)
    (we : WireEngine) (hengine : c.service.EnginesGet tr engineName = .ok we) :
    GetEngineFullConfig c engineName tr
      = some ((some [("engine", .engine (convertEngine we)),
                ("data_stores", .list (resolveDataStores c (we.DataStoreIds.getD [])
                  (tr ++ [{ call := .EnginesGet engineName, err := none }])).1)], none),
          tr ++ ({ call := .EnginesGet engineName, err := none }
            :: (resolveDataStores c (we.DataStoreIds.getD [])
                  (tr ++ [{ call := .EnginesGet engineName, err := none }])).2)) := by
  simp only [GetEngineFullConfig, GetEngineDetails, doCall, hengine, errOf]
  rw [loop_eq_resolveDataStores]
  simp [convertEngine]

/-- C7, as stated, fails: when the engine's own detail read fails, `GetEngineFullConfig`
returns that error and a nil result. -/
theorem C7_engine_read_failure_is_returned :
    GetEngineFullConfig failClient
        "projects/p/locations/us/collections/default_collection/engines/eng1" []
      = some ((none, some "failed to get engine details: boom"),
          [{ call := .EnginesGet
               "projects/p/locations/us/collections/default_collection/engines/eng1",
             err := some "boom" }]) := by
  decide

/-- C7, amended: whenever the engine's own detail read succeeds, `GetEngineFullConfig`
returns a result and no error, one detail read is issued per referenced id, and when the
engine references N data-store ids of which M fail their detail read the "data_stores"
list has exactly N − M entries; when the engine's own detail read fails,
`GetEngineFullConfig` returns that error and a nil result. -/
theorem C7_full_config_skips_unreadable (c : GeminiClient) (engineName : String) (tr : Trace) :
    (∀ we, c.service.EnginesGet tr engineName = .ok we →
      ∃ config stores tr',
        GetEngineFullConfig c engineName tr = some ((some config, none), tr') ∧
        config.get "data_stores" = some (.list stores) ∧
        detailReads (issued tr tr') = sliceLen we.DataStoreIds ∧
        stores.length + failedDetailReads (issued tr tr') = sliceLen we.DataStoreIds ∧
        stores.length = sliceLen we.DataStoreIds - failedDetailReads (issued tr tr')) ∧
    (∀ e, c.service.EnginesGet tr engineName = .error e →
      GetEngineFullConfig c engineName tr
        = some ((none, some ("failed to get engine details: " ++ e)),
            tr ++ [{ call := .EnginesGet engineName, err := some e }])) := by
  constructor
  · intro we hengine
    have hc := resolveDataStores_counts c (we.DataStoreIds.getD [])
      (tr ++ [{ call := .EnginesGet engineName, err := none }])
    have hlen : (we.DataStoreIds.getD []).length = sliceLen we.DataStoreIds := by
      cases we.DataStoreIds <;> rfl
    rw [hlen] at hc
    refine ⟨_, (resolveDataStores c (we.DataStoreIds.getD [])
      (tr ++ [{ call := .EnginesGet engineName, err := none }])).1, _,
      GetEngineFullConfig_of_engine_ok c engineName tr we hengine, ?_, ?_, ?_, ?_⟩
    · simp [ConfigMap.get]
    · simp only [issued_append, detailReads_cons, isDetailRead]
      simpa using hc.2
    · simp only [issued_append, failedDetailReads_cons, isDetailRead]
      simpa using hc.1
    · simp only [issued_append, failedDetailReads_cons, isDetailRead]
      have := hc.1
      simp only [Bool.false_and, Bool.false_eq_true, if_false, Nat.add_zero]
      omega
  · intro e hengine
    simp [GetEngineFullConfig, GetEngineDetails, doCall, hengine]

theorem C7_full_config_skips_unreadable_witness :
    partialService.EnginesGet []
        "projects/p/locations/us/collections/default_collection/engines/eng1"
      = .ok { Name := "projects/p/locations/us/collections/default_collection/engines/eng1",
              DataStoreIds := some ["ds1", "ds2", "ds3"] } ∧
    (∃ config stores tr',
      GetEngineFullConfig partialClient
          "projects/p/locations/us/collections/default_collection/engines/eng1" []
        = some ((some config, none), tr') ∧
      config.get "data_stores" = some (.list stores) ∧
      detailReads (issued [] tr') = 3 ∧
      stores.length + failedDetailReads (issued [] tr') = 3 ∧
      stores.length = 3 - failedDetailReads (issued [] tr')) ∧
    failService.EnginesGet []
        "projects/p/locations/us/collections/default_collection/engines/eng1"
      = .error "boom" ∧
    GetEngineFullConfig failClient
        "projects/p/locations/us/collections/default_collection/engines/eng1" []
      = some ((none, some ("failed to get engine details: " ++ "boom")),
          [] ++ [{ call := .EnginesGet
                     "projects/p/locations/us/collections/default_collection/engines/eng1",
                   err := some "boom" }]) :=
  ⟨rfl,
    (C7_full_config_skips_unreadable partialClient
      "projects/p/locations/us/collections/default_collection/engines/eng1" []).1 _ rfl,
    rfl,
    (C7_full_config_skips_unreadable failClient
      "projects/p/locations/us/collections/default_collection/engines/eng1" []).2 _ rfl⟩

/-- C8: in `GetEngineFullConfig`, a referenced data store whose detail read succeeds is
included in "data_stores" and no error is returned; when its schema lookup fails its
Schema is unset, and when the lookup succeeds its Schema is the map returned by
`GetDataStoreSchema`. Here `pre` are the ids visited before `d`, and `cfg1`, `tr1` the
configuration map and the trace when the loop reaches `d`. -/
theorem C8_schema_lookup_best_effort (c : GeminiClient) (engineName : String) (tr : Trace)
    (we : WireEngine) (pre post : List String) (d : String) (w : WireDataStore)
    (cfg1 : ConfigMap) (tr1 : Trace)
    (hengine : c.service.EnginesGet tr engineName = .ok we)
    (hids : we.DataStoreIds = some (pre ++ d :: post))
    (hpre : GetEngineFullConfig.loop c pre
        [("engine", .engine (convertEngine we)), ("data_stores", .list [])]
        (tr ++ [{ call := .EnginesGet engineName, err := none }]) = some (cfg1, tr1))
    (hread : c.service.DataStoresGet tr1
      ("projects/" ++ c.config.ProjectID ++ "/locations/" ++ c.config.Location
        ++ "/collections/" ++ c.config.Collection ++ "/dataStores/" ++ d) = .ok w) :
    ∃ before entry after config tr',
      cfg1.get "data_stores" = some (.list before) ∧
      GetEngineFullConfig c engineName tr = some ((some config, none), tr') ∧
      config.get "data_stores" = some (.list (before ++ entry :: after)) ∧
      ((∃ e, c.service.SchemasGet (tr1 ++ [Event.mk (Call.DataStoresGet ("projects/" ++ c.config.ProjectID ++ "/locations/" ++ c.config.Location
        ++ "/collections/" ++ c.config.Collection ++ "/dataStores/" ++ d)) none])
            ("projects/" ++ c.config.ProjectID ++ "/locations/" ++ c.config.Location
        ++ "/collections/" ++ c.config.Collection ++ "/dataStores/" ++ d
          ++ "/schemas/default_schema") = .error e) →
        entry = convertDataStore w ∧ entry.Schema = none) ∧
      (∀ schema, c.service.SchemasGet (tr1 ++ [Event.mk (Call.DataStoresGet ("projects/" ++ c.config.ProjectID ++ "/locations/" ++ c.config.Location
        ++ "/collections/" ++ c.config.Collection ++ "/dataStores/" ++ d)) none])
            ("projects/" ++ c.config.ProjectID ++ "/locations/" ++ c.config.Location
        ++ "/collections/" ++ c.config.Collection ++ "/dataStores/" ++ d
          ++ "/schemas/default_schema") = .ok schema →
        (GetDataStoreSchema c ("projects/" ++ c.config.ProjectID ++ "/locations/" ++ c.config.Location
        ++ "/collections/" ++ c.config.Collection ++ "/dataStores/" ++ d) (tr1 ++ [Event.mk (Call.DataStoresGet ("projects/" ++ c.config.ProjectID ++ "/locations/" ++ c.config.Location
        ++ "/collections/" ++ c.config.Collection ++ "/dataStores/" ++ d)) none])).1.2 = none ∧
        entry = { convertDataStore w with
          Schema := (GetDataStoreSchema c ("projects/" ++ c.config.ProjectID ++ "/locations/" ++ c.config.Location
        ++ "/collections/" ++ c.config.Collection ++ "/dataStores/" ++ d) (tr1 ++ [Event.mk (Call.DataStoresGet ("projects/" ++ c.config.ProjectID ++ "/locations/" ++ c.config.Location
        ++ "/collections/" ++ c.config.Collection ++ "/dataStores/" ++ d)) none])).1.1 } ∧
        entry.Schema = some (if schema.Name ≠ "" then [("name", schema.Name)] else [])) := by
  rw [loop_eq_resolveDataStores] at hpre
  simp only [Option.some.injEq, Prod.mk.injEq, List.nil_append] at hpre
  obtain ⟨hcfg, htr⟩ := hpre
  have hfull := GetEngineFullConfig_of_engine_ok c engineName tr we hengine
  rw [hids] at hfull
  simp only [Option.getD_some, resolveDataStores_append] at hfull
  rw [htr] at hfull
  simp only [resolveDataStores, hread] at hfull
  subst hcfg
  cases hs : c.service.SchemasGet (tr1 ++ [Event.mk (Call.DataStoresGet ("projects/" ++ c.config.ProjectID ++ "/locations/" ++ c.config.Location
        ++ "/collections/" ++ c.config.Collection ++ "/dataStores/" ++ d)) none])
      ("projects/" ++ c.config.ProjectID ++ "/locations/" ++ c.config.Location
        ++ "/collections/" ++ c.config.Collection ++ "/dataStores/" ++ d
          ++ "/schemas/default_schema") with
  | error e =>
    rw [hs] at hfull
    simp only at hfull
    refine ⟨_, convertDataStore w, _, _, _, rfl, hfull, rfl, fun _ => ⟨rfl, rfl⟩,
      fun schema h => by simp at h⟩
  | ok schema =>
    rw [hs] at hfull
    simp only at hfull
    refine ⟨_, { convertDataStore w with
        Schema := some (if schema.Name ≠ "" then [("name", schema.Name)] else []) }, _, _, _,
      rfl, hfull, rfl, fun h => by simp at h, ?_⟩
    intro schema' h
    simp only [Except.ok.injEq] at h
    subst h
    simp [GetDataStoreSchema, doCall, hs]

theorem C8_schema_lookup_best_effort_witness :
    (∃ cfg1 tr1,
      GetEngineFullConfig.loop partialClient ["ds1", "ds2"]
          [("engine", .engine (convertEngine
            (WireEngine.mk "projects/p/locations/us/collections/default_collection/engines/eng1"
              "" "" "" "" "" (some ["ds1", "ds2", "ds3"]) none none))),
            ("data_stores", .list [])]
          ([] ++ [Event.mk (.EnginesGet "projects/p/locations/us/collections/default_collection/engines/eng1")
            none]) = some (cfg1, tr1) ∧
      partialService.DataStoresGet tr1 "projects/p/locations/us/collections/default_collection/dataStores/ds3"
        = .ok 
          ({ Name := "projects/p/locations/us/collections/default_collection/dataStores/ds3",
             DisplayName := "store" } : WireDataStore) ∧
      ∃ before entry after config tr',
        cfg1.get "data_stores" = some (.list before) ∧
        GetEngineFullConfig partialClient "projects/p/locations/us/collections/default_collection/engines/eng1" []
          = some ((some config, none), tr') ∧
        config.get "data_stores" = some (.list (before ++ entry :: after)) ∧
        ((∃ e, partialService.SchemasGet (tr1 ++ [Event.mk (Call.DataStoresGet "projects/p/locations/us/collections/default_collection/dataStores/ds3") none])
              "projects/p/locations/us/collections/default_collection/dataStores/ds3/schemas/default_schema" = .error e) →
          entry = convertDataStore 
          ({ Name := "projects/p/locations/us/collections/default_collection/dataStores/ds3",
             DisplayName := "store" } : WireDataStore) ∧ entry.Schema = none) ∧
        (∀ schema, partialService.SchemasGet (tr1 ++ [Event.mk (Call.DataStoresGet "projects/p/locations/us/collections/default_collection/dataStores/ds3") none])
              "projects/p/locations/us/collections/default_collection/dataStores/ds3/schemas/default_schema" = .ok schema →
          (GetDataStoreSchema partialClient "projects/p/locations/us/collections/default_collection/dataStores/ds3"
            (tr1 ++ [Event.mk (Call.DataStoresGet "projects/p/locations/us/collections/default_collection/dataStores/ds3") none])).1.2 = none ∧
          entry = { convertDataStore 
          ({ Name := "projects/p/locations/us/collections/default_collection/dataStores/ds3",
             DisplayName := "store" } : WireDataStore) with
            Schema := (GetDataStoreSchema partialClient "projects/p/locations/us/collections/default_collection/dataStores/ds3"
              (tr1 ++ [Event.mk (Call.DataStoresGet "projects/p/locations/us/collections/default_collection/dataStores/ds3") none])).1.1 } ∧
          entry.Schema = some (if schema.Name ≠ "" then [("name", schema.Name)] else []))) ∧
    (∃ cfg1 tr1,
      GetEngineFullConfig.loop partialClient []
          [("engine", .engine (convertEngine
            (WireEngine.mk "projects/p/locations/us/collections/default_collection/engines/eng1"
              "" "" "" "" "" (some ["ds1", "ds2", "ds3"]) none none))),
            ("data_stores", .list [])]
          ([] ++ [Event.mk (.EnginesGet "projects/p/locations/us/collections/default_collection/engines/eng1")
            none]) = some (cfg1, tr1) ∧
      partialService.DataStoresGet tr1 "projects/p/locations/us/collections/default_collection/dataStores/ds1"
        = .ok 
          ({ Name := "projects/p/locations/us/collections/default_collection/dataStores/ds1",
             DisplayName := "store" } : WireDataStore) ∧
      ∃ before entry after config tr',
        cfg1.get "data_stores" = some (.list before) ∧
        GetEngineFullConfig partialClient "projects/p/locations/us/collections/default_collection/engines/eng1" []
          = some ((some config, none), tr') ∧
        config.get "data_stores" = some (.list (before ++ entry :: after)) ∧
        ((∃ e, partialService.SchemasGet (tr1 ++ [Event.mk (Call.DataStoresGet "projects/p/locations/us/collections/default_collection/dataStores/ds1") none])
              "projects/p/locations/us/collections/default_collection/dataStores/ds1/schemas/default_schema" = .error e) →
          entry = convertDataStore 
          ({ Name := "projects/p/locations/us/collections/default_collection/dataStores/ds1",
             DisplayName := "store" } : WireDataStore) ∧ entry.Schema = none) ∧
        (∀ schema, partialService.SchemasGet (tr1 ++ [Event.mk (Call.DataStoresGet "projects/p/locations/us/collections/default_collection/dataStores/ds1") none])
              "projects/p/locations/us/collections/default_collection/dataStores/ds1/schemas/default_schema" = .ok schema →
          (GetDataStoreSchema partialClient "projects/p/locations/us/collections/default_collection/dataStores/ds1"
            (tr1 ++ [Event.mk (Call.DataStoresGet "projects/p/locations/us/collections/default_collection/dataStores/ds1") none])).1.2 = none ∧
          entry = { convertDataStore 
          ({ Name := "projects/p/locations/us/collections/default_collection/dataStores/ds1",
             DisplayName := "store" } : WireDataStore) with
            Schema := (GetDataStoreSchema partialClient "projects/p/locations/us/collections/default_collection/dataStores/ds1"
              (tr1 ++ [Event.mk (Call.DataStoresGet "projects/p/locations/us/collections/default_collection/dataStores/ds1") none])).1.1 } ∧
          entry.Schema = some (if schema.Name ≠ "" then [("name", schema.Name)] else []))) :=
  ⟨⟨_, _, rfl, rfl,
      C8_schema_lookup_best_effort partialClient "projects/p/locations/us/collections/default_collection/engines/eng1" [] _ ["ds1", "ds2"] [] "ds3" _ _ _ rfl rfl rfl rfl⟩,
    ⟨_, _, rfl, rfl,
      C8_schema_lookup_best_effort partialClient "projects/p/locations/us/collections/default_collection/engines/eng1" [] _ [] ["ds2", "ds3"] "ds1" _ _ _ rfl rfl rfl rfl⟩⟩

/-! ## Engine creation payload -/

/-- C9: `CreateSearchEngine` issues exactly one create call; the DataStoreIds field of
its payload is nil (so omitted from the request) if and only if the supplied id list is
nil or empty, and when the list is non-empty the field is that list, unchanged. -/
theorem C9_empty_data_store_list_omitted (c : GeminiClient)
    (engineID displayName searchTier : String) (dataStoreIDs : Option (List String))
    (tr : Trace) :
    ∃ body err,
      issued tr (CreateSearchEngine c engineID displayName dataStoreIDs searchTier tr).2
        = [Event.mk (Call.EnginesCreate
            ("projects/" ++ c.config.ProjectID ++ "/locations/" ++ c.config.Location
              ++ "/collections/" ++ c.config.Collection) body engineID) err] ∧
      (body.DataStoreIds = none ↔ (dataStoreIDs = none ∨ dataStoreIDs = some [])) ∧
      (∀ ids, dataStoreIDs = some ids → ids ≠ [] → body.DataStoreIds = some ids) := by
  simp only [CreateSearchEngine, doCall]
  generalize c.service.EnginesCreate tr _ _ _ = a
  rcases dataStoreIDs with _ | _ | ⟨x, xs⟩ <;> cases a <;> simp [sliceLen]

/-! ## Endpoint selection -/

theorem splitChars_eq_takeWhile_cons (sep : Char) :
    ∀ l : List Char, ∃ more,
      splitChars sep l = l.takeWhile (fun ch => ch ≠ sep) :: more := by
  intro l
  induction l with
  | nil => exact ⟨[], rfl⟩
  | cons ch rest ih =>
    obtain ⟨more, h⟩ := ih
    by_cases hc : ch = sep
    · exact ⟨splitChars sep rest, by simp [splitChars, hc]⟩
    · exact ⟨more, by simp [splitChars, hc, h]⟩

theorem takeWhile_ne_of_not_mem (sep : Char) :
    ∀ l : List Char, sep ∉ l → l.takeWhile (fun ch => ch ≠ sep) = l := by
  intro l
  induction l with
  | nil => intro _; rfl
  | cons ch rest ih =>
    intro h
    simp only [List.mem_cons, not_or] at h
    have hne : ch ≠ sep := fun heq => h.1 heq.symm
    simp only [List.takeWhile_cons, hne, ne_eq, not_false_eq_true, decide_True, if_true]
    rw [ih h.2]

theorem region_of_location (location : String) :
    (if stringsContains location '-' then (stringsSplit location '-').headD "" else location)
      = beforeFirstHyphen location := by
  unfold stringsContains stringsSplit beforeFirstHyphen
  obtain ⟨more, h⟩ := splitChars_eq_takeWhile_cons '-' location.data
  split
  · rw [h]
    rfl
  · rename_i hc
    have hmem : '-' ∉ location.data := by simpa using hc
    rw [takeWhile_ne_of_not_mem '-' location.data hmem]

theorem dropWhile_ne_head (sep : Char) :
    ∀ l : List Char, l.dropWhile (fun ch => ch ≠ sep) = [] ∨
      (l.dropWhile (fun ch => ch ≠ sep)).head? = some sep := by
  intro l
  induction l with
  | nil => exact Or.inl rfl
  | cons ch rest ih =>
    by_cases hc : ch = sep
    · right
      simp [List.dropWhile_cons, hc]
    · simpa [List.dropWhile_cons, hc] using ih

/-- C10: the endpoint chosen by `NewGeminiClient` for a location is
"https://discoveryengine.googleapis.com/" when the location is exactly "global", and
otherwise "https://<prefix>-discoveryengine.googleapis.com/", where <prefix> is the part
of the location before its first hyphen (it contains no hyphen, and what follows it in
the location is empty or starts with a hyphen): "us" for "us-central1", "eu" for "eu".
The location is the one of the client configuration, which is the configured location
unless that is empty; the service of the client is created with that endpoint. -/
theorem C10_endpoint_of_location (location : String) (env : Env)
    (getDefaultProject : Except String String)
    (NewService : ServiceOptions → Except String Service) (config : Config) :
    NewGeminiClient.baseURL location
      = (if location = "global" then "https://discoveryengine.googleapis.com/"
          else "https://" ++ beforeFirstHyphen location ++ "-discoveryengine.googleapis.com/") ∧
    '-' ∉ (beforeFirstHyphen location).data ∧
    (∃ rest, location = beforeFirstHyphen location ++ rest ∧
      (rest = "" ∨ rest.data.head? = some '-')) ∧
    beforeFirstHyphen "us-central1" = "us" ∧ beforeFirstHyphen "eu" = "eu" ∧
    (∀ client, NewGeminiClient env getDefaultProject NewService config = (some client, none) →
      client.config.Location
        = (if config.Location = "" then getDefaultLocation env else config.Location) ∧
      ∃ credentials, NewService { credentials := credentials
                                  WithEndpoint := NewGeminiClient.baseURL client.config.Location }
        = .ok client.service) := by
  refine ⟨?_, ?_, ?_, by decide, by decide, ?_⟩
  · simp only [NewGeminiClient.baseURL, region_of_location]
  · intro h
    have := List.mem_takeWhile_imp h
    simp at this
  · refine ⟨String.mk (location.data.dropWhile (fun ch => ch ≠ '-')), ?_, ?_⟩
    · apply String.ext
      simp [beforeFirstHyphen, List.takeWhile_append_dropWhile]
    · rcases dropWhile_ne_head '-' location.data with h | h
      · left
        apply String.ext
        simpa using h
      · right
        simpa using h
  · intro client
    simp only [NewGeminiClient]
    split
    · intro h
      simp at h
    · rename_i cfg hres
      split
      · split
        · intro h
          simp at h
        · rename_i service hs
          intro h
          simp only [Prod.mk.injEq, Option.some.injEq, and_true] at h
          subst h
          refine ⟨?_, _, hs⟩
          revert hres
          by_cases hl : config.Location = "" <;> by_cases hp : config.ProjectID = "" <;>
            cases getDefaultProject <;> simp [hl, hp] <;> rintro rfl <;> simp [hl]
      · split
        · intro h
          simp at h
        · rename_i service hs
          intro h
          simp only [Prod.mk.injEq, Option.some.injEq, and_true] at h
          subst h
          refine ⟨?_, _, hs⟩
          revert hres
          by_cases hl : config.Location = "" <;> by_cases hp : config.ProjectID = "" <;>
            cases getDefaultProject <;> simp [hl, hp] <;> rintro rfl <;> simp [hl]

theorem C10_endpoint_of_location_witness :
    NewGeminiClient {} (.ok "p") usNewService centralConfig
      = (some { service := okService, config := centralConfig }, none) ∧
    NewGeminiClient.baseURL "us-central1" = "https://us-discoveryengine.googleapis.com/" ∧
    (centralConfig.Location
        = (if centralConfig.Location = "" then getDefaultLocation {}
            else centralConfig.Location) ∧
      ∃ credentials, usNewService { credentials := credentials
                                    WithEndpoint := NewGeminiClient.baseURL centralConfig.Location }
        = .ok okService) :=
  ⟨rfl, by decide,
    (C10_endpoint_of_location "us-central1" {} (.ok "p") usNewService centralConfig).2.2.2.2.2
      { service := okService, config := centralConfig } rfl⟩

/-! ## Operation pollers -/

theorem waitForDataStoreCreation_loop_eq (c : GeminiClient) (latency : Trace → Nat)
    (operationName dataStoreID : String) (startTime : Nat) :
    ∀ (fuel : Nat) (w : World),
      waitForDataStoreCreation.loop c latency operationName dataStoreID startTime fuel w
        = pollLoop c latency operationName "data store creation failed: "
            "timeout waiting for data store creation"
            ("projects/" ++ c.config.ProjectID ++ "/locations/" ++ c.config.Location
              ++ "/collections/" ++ c.config.Collection ++ "/dataStores/" ++ dataStoreID)
            startTime fuel w := by
  intro fuel
  induction fuel with
  | zero => intro w; rfl
  | succ fuel ih =>
    intro w
    simp only [waitForDataStoreCreation.loop, pollLoop, doCall, ih, statusFetch]
    split
    · generalize c.service.OperationsGet w.trace operationName = a
      cases a with
      | error err => simp
      | ok operation =>
        simp only [errOf, ite_self]
    · rfl

theorem waitForEngineCreation_loop_eq (c : GeminiClient) (latency : Trace → Nat)
    (operationName engineID : String) (startTime : Nat) :
    ∀ (fuel : Nat) (w : World),
      waitForEngineCreation.loop c latency operationName engineID startTime fuel w
        = pollLoop c latency operationName "engine creation failed: "
            "timeout waiting for engine creation"
            ("projects/" ++ c.config.ProjectID ++ "/locations/" ++ c.config.Location
              ++ "/collections/" ++ c.config.Collection ++ "/engines/" ++ engineID)
            startTime fuel w := by
  intro fuel
  induction fuel with
  | zero => intro w; rfl
  | succ fuel ih =>
    intro w
    simp only [waitForEngineCreation.loop, pollLoop, doCall, ih, statusFetch]
    split
    · generalize c.service.OperationsGet w.trace operationName = a
      cases a with
      | error err => simp
      | ok operation =>
        simp only [errOf, ite_self]
    · rfl

theorem elapsedBefore_ge (latency : Trace → Nat) (operationName : String) (tr : Trace) :
    ∀ j, j * checkInterval ≤ elapsedBefore latency operationName tr j := by
  intro j
  induction j with
  | zero => simp [elapsedBefore]
  | succ j ih =>
    simp only [elapsedBefore, Nat.succ_mul]
    omega

theorem pollLoop_step (c : GeminiClient) (latency : Trace → Nat) (operationName : String)
    (failed timeout name : String) (w : World) (fuel j : Nat) (operation : WireOperation)
    (hbudget : elapsedBefore latency operationName w.trace j < maxWaitTime)
    (hfetch : c.service.OperationsGet
      (w.trace ++ List.replicate j (statusFetch operationName)) operationName = .ok operation)
    (hnot : operation.Done = false) :
    pollLoop c latency operationName failed timeout name w.now (fuel + 1)
        (pollWorld latency operationName w j)
      = pollLoop c latency operationName failed timeout name w.now fuel
        (pollWorld latency operationName w (j + 1)) := by
  simp only [pollLoop, pollWorld, Nat.add_sub_cancel_left, hbudget, if_true, hfetch, hnot,
    Bool.false_eq_true, if_false]
  congr 1
  simp [List.replicate_succ', List.range_succ, elapsedBefore, Nat.add_assoc]

theorem pollLoop_iterate (c : GeminiClient) (latency : Trace → Nat) (operationName : String)
    (failed timeout name : String) (w : World) :
    ∀ (k fuel : Nat),
      (∀ j, j < k → ∃ operation, c.service.OperationsGet
          (w.trace ++ List.replicate j (statusFetch operationName)) operationName = .ok operation
        ∧ operation.Done = false) →
      (∀ j, j < k → elapsedBefore latency operationName w.trace j < maxWaitTime) →
      pollLoop c latency operationName failed timeout name w.now (fuel + k) w
        = pollLoop c latency operationName failed timeout name w.now fuel
          (pollWorld latency operationName w k) := by
  intro k
  induction k with
  | zero =>
    intro fuel _ _
    simp [pollWorld, elapsedBefore]
  | succ k ih =>
    intro fuel hnot hbudget
    have h1 := ih (fuel + 1) (fun j hj => hnot j (Nat.lt_succ_of_lt hj))
      (fun j hj => hbudget j (Nat.lt_succ_of_lt hj))
    obtain ⟨operation, hfetch, hdone⟩ := hnot k (Nat.lt_succ_self k)
    have h2 := pollLoop_step c latency operationName failed timeout name w fuel k operation
      (hbudget k (Nat.lt_succ_self k)) hfetch hdone
    have e : fuel + (k + 1) = fuel + 1 + k := by omega
    rw [e, h1, h2]

theorem pollLoop_total (c : GeminiClient) (latency : Trace → Nat) (operationName : String)
    (failed timeout name : String) (startTime : Nat) :
    ∀ (fuel : Nat) (w : World), startTime ≤ w.now → 1 ≤ fuel →
      maxWaitTime ≤ (w.now - startTime) + (fuel - 1) * checkInterval →
      ∃ r, pollLoop c latency operationName failed timeout name startTime fuel w = some r := by
  intro fuel
  induction fuel with
  | zero => intro w _ h; omega
  | succ n ih =>
    intro w hstart _ hfuel
    simp only [pollLoop]
    split
    · rename_i hlt
      generalize c.service.OperationsGet w.trace operationName = a
      cases a with
      | error err => exact ⟨_, rfl⟩
      | ok operation =>
        simp only
        split
        · split <;> exact ⟨_, rfl⟩
        · apply ih
          · simp only; omega
          · simp only [Nat.add_sub_cancel] at hfuel
            rcases n with _ | n
            · simp at hfuel; omega
            · omega
          · simp only [Nat.add_sub_cancel, checkInterval, Second] at hfuel ⊢
            rcases n with _ | n
            · simp at hfuel; omega
            · simp only [Nat.add_sub_cancel]
              omega
    · exact ⟨_, rfl⟩

theorem pollLoop_fetchedAt (c : GeminiClient) (latency : Trace → Nat) (operationName : String)
    (failed timeout name : String) (startTime : Nat) :
    ∀ (fuel : Nat) (w : World) (r : String × Option String) (w' : World), startTime ≤ w.now →
      pollLoop c latency operationName failed timeout name startTime fuel w = some (r, w') →
      ∃ starts calls, w'.fetchedAt = w.fetchedAt ++ starts ∧ w'.trace = w.trace ++ calls ∧
        calls.length = starts.length ∧
        ∀ t ∈ starts, startTime ≤ t ∧ t - startTime < maxWaitTime := by
  intro fuel
  induction fuel with
  | zero => intro w r w' _ h; simp [pollLoop] at h
  | succ n ih =>
    intro w r w' hstart h
    simp only [pollLoop] at h
    split at h
    · rename_i hlt
      revert h
      generalize c.service.OperationsGet w.trace operationName = a
      cases a with
      | error err =>
        intro h
        simp only [Option.some.injEq, Prod.mk.injEq] at h
        obtain ⟨_, rfl⟩ := h
        exact ⟨[w.now], [_], rfl, rfl, rfl, by simpa using ⟨hstart, hlt⟩⟩
      | ok operation =>
        simp only
        split
        · split
          · intro h
            simp only [Option.some.injEq, Prod.mk.injEq] at h
            obtain ⟨_, rfl⟩ := h
            exact ⟨[w.now], [_], rfl, rfl, rfl, by simpa using ⟨hstart, hlt⟩⟩
          · intro h
            simp only [Option.some.injEq, Prod.mk.injEq] at h
            obtain ⟨_, rfl⟩ := h
            exact ⟨[w.now], [_], rfl, rfl, rfl, by simpa using ⟨hstart, hlt⟩⟩
        · intro h
          obtain ⟨starts, calls, h1, h2, h3, h4⟩ := ih _ r w' (by simp only; omega) h
          refine ⟨w.now :: starts, statusFetch operationName :: calls, ?_, ?_, ?_, ?_⟩
          · simpa using h1
          · simpa using h2
          · simpa using h3
          · intro t ht
            rcases List.mem_cons.mp ht with rfl | ht
            · exact ⟨hstart, hlt⟩
            · exact h4 t ht
    · simp only [Option.some.injEq, Prod.mk.injEq] at h
      obtain ⟨_, rfl⟩ := h
      exact ⟨[], [], by simp, by simp, rfl, by simp⟩

theorem pollLoop_never_done (c : GeminiClient) (latency : Trace → Nat) (operationName : String)
    (failed timeout name : String) (startTime : Nat)
    (hnever : ∀ tr, ∃ operation,
      c.service.OperationsGet tr operationName = .ok operation ∧ operation.Done = false) :
    ∀ (fuel : Nat) (w : World) (r : String × Option String) (w' : World),
      pollLoop c latency operationName failed timeout name startTime fuel w = some (r, w') →
      r = ("", some timeout) := by
  intro fuel
  induction fuel with
  | zero => intro w r w' h; simp [pollLoop] at h
  | succ n ih =>
    intro w r w' h
    simp only [pollLoop] at h
    obtain ⟨operation, hfetch, hnot⟩ := hnever w.trace
    simp only [hfetch, hnot, Bool.false_eq_true, if_false] at h
    split at h
    · exact ih _ r w' h
    · simp only [Option.some.injEq, Prod.mk.injEq] at h
      exact h.1.symm

theorem elapsedBefore_mono (latency : Trace → Nat) (operationName : String) (tr : Trace) :
    ∀ k j, j ≤ k →
      elapsedBefore latency operationName tr j ≤ elapsedBefore latency operationName tr k := by
  intro k
  induction k with
  | zero =>
    intro j hj
    have : j = 0 := by omega
    subst this
    exact Nat.le_refl _
  | succ k ih =>
    intro j hj
    rcases Nat.lt_or_ge j (k + 1) with h | h
    · have := ih j (by omega)
      simp only [elapsedBefore]
      omega
    · have : j = k + 1 := by omega
      subst this
      exact Nat.le_refl _

theorem polls_lt_sixty (latency : Trace → Nat) (operationName : String) (tr : Trace) (k : Nat)
    (hbudget : elapsedBefore latency operationName tr k < maxWaitTime) : k < 60 := by
  have h := elapsedBefore_ge latency operationName tr k
  simp only [maxWaitTime, Minute, checkInterval, Second] at h hbudget
  omega

theorem pollLoop_done_after (c : GeminiClient) (latency : Trace → Nat) (operationName : String)
    (failed timeout name : String) (w : World) (k : Nat) (operation : WireOperation)
    (hnot : ∀ j, j < k → ∃ operation, c.service.OperationsGet
        (w.trace ++ List.replicate j (statusFetch operationName)) operationName = .ok operation
      ∧ operation.Done = false)
    (hfetch : c.service.OperationsGet
      (w.trace ++ List.replicate k (statusFetch operationName)) operationName = .ok operation)
    (hdone : operation.Done = true)
    (hbudget : elapsedBefore latency operationName w.trace k < maxWaitTime) :
    ∃ w', pollLoop c latency operationName failed timeout name w.now pollFuel w
        = some ((match operation.Error with
                  | some e => ("", some (failed ++ e))
                  | none => (name, none)), w') ∧
      issued w.trace w'.trace = List.replicate (k + 1) (statusFetch operationName) ∧
      w'.slept = w.slept ++ List.replicate k checkInterval := by
  have hk := polls_lt_sixty latency operationName w.trace k hbudget
  have hfuel : pollFuel = (60 - k) + 1 + k := by
    have : pollFuel = 61 := by decide
    omega
  have hiter := pollLoop_iterate c latency operationName failed timeout name w k ((60 - k) + 1)
    hnot (fun j hj => Nat.lt_of_le_of_lt
      (elapsedBefore_mono latency operationName w.trace k j (Nat.le_of_lt hj)) hbudget)
  rw [hfuel, hiter]
  simp only [pollLoop, pollWorld, Nat.add_sub_cancel_left, hbudget, if_true, hfetch, hdone]
  cases operation.Error with
  | some e =>
    refine ⟨_, rfl, ?_, rfl⟩
    simp [List.replicate_succ']
  | none =>
    refine ⟨_, rfl, ?_, rfl⟩
    simp [List.replicate_succ']

/-- C11, as stated, fails for k = 60 (fetches taking no time): the operation is not done
for the first 60 polls and done with an error from then on, yet the poller sleeps 60
times, never makes a 61st fetch and returns the timeout error. -/
theorem C11_sixty_polls_time_out :
    (∀ j, j < 60 → slowFailClient.service.OperationsGet
        (sampleWorld.trace ++ List.replicate j (statusFetch "op1")) "op1"
      = .ok { Done := false }) ∧
    slowFailClient.service.OperationsGet
        (sampleWorld.trace ++ List.replicate 60 (statusFetch "op1")) "op1"
      = .ok { Done := true, Error := some "quota exceeded" } ∧
    (waitForDataStoreCreation slowFailClient instant "op1" "ds1" sampleWorld).map
        (fun r => (r.1, r.2.trace.length, r.2.slept.length))
      = some (("", some "timeout waiting for data store creation"), 60, 60) ∧
    (waitForEngineCreation slowFailClient instant "op1" "eng1" sampleWorld).map
        (fun r => (r.1, r.2.trace.length, r.2.slept.length))
      = some (("", some "timeout waiting for engine creation"), 60, 60) := by
  refine ⟨fun j hj => ?_, rfl, by decide, by decide⟩
  have hlen : (sampleWorld.trace ++ List.replicate j (statusFetch "op1")).length = j := by
    simp [sampleWorld]
  simp only [slowFailClient, opFailsAfter, hlen, hj, if_true]

/-- C11, amended: when the operation is not done for the first k polls and done with an
error on the next one, and that next poll is due before the 5-minute budget is used up
(the k sleeps of 5 seconds and the first k fetches take less than 5 minutes, which needs
k < 60), the poller returns an error carrying the remote operation error after exactly
k + 1 status fetches, having slept the 5-second interval exactly k times. -/
theorem C11_operation_error_after_polls (c : GeminiClient) (latency : Trace → Nat)
    (operationName id : String) (w : World) (k : Nat) (e : String)
    (hnot : ∀ j, j < k → ∃ operation, c.service.OperationsGet
        (w.trace ++ List.replicate j (statusFetch operationName)) operationName = .ok operation
      ∧ operation.Done = false)
    (hdone : ∃ operation, c.service.OperationsGet
        (w.trace ++ List.replicate k (statusFetch operationName)) operationName = .ok operation
      ∧ operation.Done = true ∧ operation.Error = some e)
    (hbudget : elapsedBefore latency operationName w.trace k < maxWaitTime) :
    k < 60 ∧
    (∃ w', waitForDataStoreCreation c latency operationName id w
          = some (("", some ("data store creation failed: " ++ e)), w') ∧
        issued w.trace w'.trace = List.replicate (k + 1) (statusFetch operationName) ∧
        w'.slept = w.slept ++ List.replicate k checkInterval) ∧
    (∃ w', waitForEngineCreation c latency operationName id w
          = some (("", some ("engine creation failed: " ++ e)), w') ∧
        issued w.trace w'.trace = List.replicate (k + 1) (statusFetch operationName) ∧
        w'.slept = w.slept ++ List.replicate k checkInterval) := by
  obtain ⟨operation, hfetch, hd, herr⟩ := hdone
  refine ⟨polls_lt_sixty latency operationName w.trace k hbudget, ?_, ?_⟩
  · have h := pollLoop_done_after c latency operationName "data store creation failed: "
      "timeout waiting for data store creation"
      ("projects/" ++ c.config.ProjectID ++ "/locations/" ++ c.config.Location
            ++ "/collections/" ++ c.config.Collection ++ "/dataStores/" ++ id) w k operation hnot hfetch hd hbudget
    rw [herr] at h
    simpa only [waitForDataStoreCreation, waitForDataStoreCreation_loop_eq] using h
  · have h := pollLoop_done_after c latency operationName "engine creation failed: "
      "timeout waiting for engine creation"
      ("projects/" ++ c.config.ProjectID ++ "/locations/" ++ c.config.Location
            ++ "/collections/" ++ c.config.Collection ++ "/engines/" ++ id) w k operation hnot hfetch hd hbudget
    rw [herr] at h
    simpa only [waitForEngineCreation, waitForEngineCreation_loop_eq] using h

theorem C11_operation_error_after_polls_witness :
    (∀ j, j < 2 → ∃ operation, quickFailClient.service.OperationsGet
        (sampleWorld.trace ++ List.replicate j (statusFetch "op1")) "op1" = .ok operation
      ∧ operation.Done = false) ∧
    (∃ operation, quickFailClient.service.OperationsGet
        (sampleWorld.trace ++ List.replicate 2 (statusFetch "op1")) "op1" = .ok operation
      ∧ operation.Done = true ∧ operation.Error = some "quota exceeded") ∧
    elapsedBefore instant "op1" sampleWorld.trace 2 < maxWaitTime ∧
    (∃ w', waitForDataStoreCreation quickFailClient instant "op1" "ds1" sampleWorld
          = some (("", some ("data store creation failed: " ++ "quota exceeded")), w') ∧
        issued sampleWorld.trace w'.trace = List.replicate (2 + 1) (statusFetch "op1") ∧
        w'.slept = sampleWorld.slept ++ List.replicate 2 checkInterval) :=
  ⟨fun j hj => by interval_cases j <;> exact ⟨_, rfl, rfl⟩, ⟨_, rfl, rfl, rfl⟩, by decide,
    (C11_operation_error_after_polls quickFailClient instant "op1" "ds1" sampleWorld 2
      "quota exceeded" (fun j hj => by interval_cases j <;> exact ⟨_, rfl, rfl⟩)
      ⟨_, rfl, rfl, rfl⟩ (by decide)).2.1⟩

/-- C12: a poller always terminates; every status fetch it issues starts strictly less
than 5 minutes after the poller started (the clock advancing by the 5-second sleep and
by the duration of each fetch), and when the status never becomes done the poller
returns the timeout error. -/
theorem C12_poller_times_out (c : GeminiClient) (latency : Trace → Nat)
    (operationName id : String) (w : World) :
    maxWaitTime = 5 * 60 * 1000000000 ∧
    (∃ r w', waitForDataStoreCreation c latency operationName id w = some (r, w') ∧
      (∃ starts calls, w'.fetchedAt = w.fetchedAt ++ starts ∧ w'.trace = w.trace ++ calls ∧
        calls.length = starts.length ∧ ∀ t ∈ starts, w.now ≤ t ∧ t - w.now < maxWaitTime) ∧
      ((∀ tr, ∃ operation, c.service.OperationsGet tr operationName = .ok operation
          ∧ operation.Done = false) →
        r = ("", some "timeout waiting for data store creation"))) ∧
    (∃ r w', waitForEngineCreation c latency operationName id w = some (r, w') ∧
      (∃ starts calls, w'.fetchedAt = w.fetchedAt ++ starts ∧ w'.trace = w.trace ++ calls ∧
        calls.length = starts.length ∧ ∀ t ∈ starts, w.now ≤ t ∧ t - w.now < maxWaitTime) ∧
      ((∀ tr, ∃ operation, c.service.OperationsGet tr operationName = .ok operation
          ∧ operation.Done = false) →
        r = ("", some "timeout waiting for engine creation"))) := by
  have hfuel : maxWaitTime ≤ (w.now - w.now) + (pollFuel - 1) * checkInterval := by
    simp only [Nat.sub_self, Nat.zero_add]
    decide
  refine ⟨by decide, ?_, ?_⟩
  · obtain ⟨⟨r, w'⟩, h⟩ := pollLoop_total c latency operationName "data store creation failed: "
      "timeout waiting for data store creation"
      ("projects/" ++ c.config.ProjectID ++ "/locations/" ++ c.config.Location
            ++ "/collections/" ++ c.config.Collection ++ "/dataStores/" ++ id) w.now pollFuel w (Nat.le_refl _) (by decide) hfuel
    refine ⟨r, w', ?_, ?_, ?_⟩
    · simpa only [waitForDataStoreCreation, waitForDataStoreCreation_loop_eq] using h
    · exact pollLoop_fetchedAt c latency operationName _ _ _ w.now pollFuel w r w'
        (Nat.le_refl _) h
    · intro hnever
      exact pollLoop_never_done c latency operationName _ _ _ w.now hnever pollFuel w r w' h
  · obtain ⟨⟨r, w'⟩, h⟩ := pollLoop_total c latency operationName "engine creation failed: "
      "timeout waiting for engine creation"
      ("projects/" ++ c.config.ProjectID ++ "/locations/" ++ c.config.Location
            ++ "/collections/" ++ c.config.Collection ++ "/engines/" ++ id) w.now pollFuel w (Nat.le_refl _) (by decide) hfuel
    refine ⟨r, w', ?_, ?_, ?_⟩
    · simpa only [waitForEngineCreation, waitForEngineCreation_loop_eq] using h
    · exact pollLoop_fetchedAt c latency operationName _ _ _ w.now pollFuel w r w'
        (Nat.le_refl _) h
    · intro hnever
      exact pollLoop_never_done c latency operationName _ _ _ w.now hnever pollFuel w r w' h

theorem C12_poller_times_out_witness :
    (∀ tr, ∃ operation, neverDoneClient.service.OperationsGet tr "op1" = .ok operation
      ∧ operation.Done = false) ∧
    (waitForDataStoreCreation neverDoneClient instant "op1" "ds1" sampleWorld).map
        (fun r => (r.1, r.2.trace.length, r.2.fetchedAt.getLast?))
      = some (("", some "timeout waiting for data store creation"), 60, some 295000000000) ∧
    ∃ r w', waitForDataStoreCreation neverDoneClient instant "op1" "ds1" sampleWorld
        = some (r, w') ∧
      (∃ starts calls, w'.fetchedAt = sampleWorld.fetchedAt ++ starts ∧
        w'.trace = sampleWorld.trace ++ calls ∧ calls.length = starts.length ∧
        ∀ t ∈ starts, sampleWorld.now ≤ t ∧ t - sampleWorld.now < maxWaitTime) ∧
      ((∀ tr, ∃ operation, neverDoneClient.service.OperationsGet tr "op1" = .ok operation
          ∧ operation.Done = false) →
        r = ("", some "timeout waiting for data store creation")) :=
  ⟨fun _ => ⟨_, rfl, rfl⟩, by decide,
    (C12_poller_times_out neverDoneClient instant "op1" "ds1" sampleWorld).2.1⟩

/-- The pollers do not look at the response of a finished operation: when the polled
operation is done with no error (after k polls that were not done, the last poll being due
within the 5-minute budget), the result is the name formatted from the client config and
the id, the same for every response. -/
theorem poller_result_independent_of_response (c : GeminiClient) (latency : Trace → Nat)
    (operationName id : String) (w : World) (k : Nat)
    (hnot : ∀ j, j < k → ∃ operation, c.service.OperationsGet
        (w.trace ++ List.replicate j (statusFetch operationName)) operationName = .ok operation
      ∧ operation.Done = false)
    (hdone : ∃ operation, c.service.OperationsGet
        (w.trace ++ List.replicate k (statusFetch operationName)) operationName = .ok operation
      ∧ operation.Done = true ∧ operation.Error = none)
    (hbudget : elapsedBefore latency operationName w.trace k < maxWaitTime) :
    (∃ w', waitForDataStoreCreation c latency operationName id w
        = some (("projects/" ++ c.config.ProjectID ++ "/locations/" ++ c.config.Location
            ++ "/collections/" ++ c.config.Collection ++ "/dataStores/" ++ id, none), w')) ∧
    (∃ w', waitForEngineCreation c latency operationName id w
        = some (("projects/" ++ c.config.ProjectID ++ "/locations/" ++ c.config.Location
            ++ "/collections/" ++ c.config.Collection ++ "/engines/" ++ id, none), w')) := by
  obtain ⟨operation, hfetch, hd, herr⟩ := hdone
  constructor
  · obtain ⟨w', h, _⟩ := pollLoop_done_after c latency operationName
      "data store creation failed: " "timeout waiting for data store creation"
      ("projects/" ++ c.config.ProjectID ++ "/locations/" ++ c.config.Location
            ++ "/collections/" ++ c.config.Collection ++ "/dataStores/" ++ id) w k operation hnot hfetch hd hbudget
    rw [herr] at h
    exact ⟨w', by simpa only [waitForDataStoreCreation, waitForDataStoreCreation_loop_eq]
      using h⟩
  · obtain ⟨w', h, _⟩ := pollLoop_done_after c latency operationName
      "engine creation failed: " "timeout waiting for engine creation"
      ("projects/" ++ c.config.ProjectID ++ "/locations/" ++ c.config.Location
            ++ "/collections/" ++ c.config.Collection ++ "/engines/" ++ id) w k operation hnot hfetch hd hbudget
    rw [herr] at h
    exact ⟨w', by simpa only [waitForEngineCreation, waitForEngineCreation_loop_eq] using h⟩

/-- C13 fails on the code: the polled operation is done with no error and its response is
present and names the data store `other` (the engine `other`), yet
`waitForDataStoreCreation` (`waitForEngineCreation`), asked about `ds1` (`eng1`), returns
the name formatted from the client config and the id. The branch that the source comments
as extracting the name from the response returns the same formatted name as the fallback
branch, so the response is never read. -/
theorem C13_response_name_is_ignored :
    (renamedClient.service.OperationsGet sampleWorld.trace "op1"
      = .ok { Done := true
              Response := some [("name",
                "projects/p/locations/us/collections/default_collection/dataStores/other")] } ∧
    responseResourceName
        { Done := true
          Response := some [("name",
            "projects/p/locations/us/collections/default_collection/dataStores/other")] }
      = some "projects/p/locations/us/collections/default_collection/dataStores/other" ∧
    (waitForDataStoreCreation renamedClient instant "op1" "ds1" sampleWorld).map (fun r => r.1)
      = some ("projects/p/locations/us/collections/default_collection/dataStores/ds1", none)) ∧
    (renamedEngineClient.service.OperationsGet sampleWorld.trace "op1"
      = .ok { Done := true
              Response := some [("name",
                "projects/p/locations/us/collections/default_collection/engines/other")] } ∧
    responseResourceName
        { Done := true
          Response := some [("name",
            "projects/p/locations/us/collections/default_collection/engines/other")] }
      = some "projects/p/locations/us/collections/default_collection/engines/other" ∧
    (waitForEngineCreation renamedEngineClient instant "op1" "eng1" sampleWorld).map
        (fun r => r.1)
      = some ("projects/p/locations/us/collections/default_collection/engines/eng1", none)) :=
  ⟨⟨rfl, by decide, by decide⟩, ⟨rfl, by decide, by decide⟩⟩

/-! ## Resource reconciler -/

theorem CreateDataStoreFromGCS_returns_result (c : GeminiClient)
    (id displayName gcsURI dataSchema reconciliationMode : String) (tr : Trace) :
    ∃ result tr', CreateDataStoreFromGCS c id displayName gcsURI dataSchema reconciliationMode tr
      = ((some result, none), tr') := by
  simp only [CreateDataStoreFromGCS, doCall]
  generalize c.service.DataStoresCreate tr _ _ _ = a
  cases a with
  | error e => exact ⟨_, _, rfl⟩
  | ok op =>
    simp only
    generalize c.service.DocumentsImport _ _ _ = b
    cases b with
    | error e => exact ⟨_, _, rfl⟩
    | ok op2 => exact ⟨_, _, rfl⟩

theorem CreateSearchEngine_returns_result (c : GeminiClient) (id displayName searchTier : String)
    (dataStoreIDs : Option (List String)) (tr : Trace) :
    ∃ result tr', CreateSearchEngine c id displayName dataStoreIDs searchTier tr
      = ((some result, none), tr') := by
  simp only [CreateSearchEngine, doCall]
  generalize c.service.EnginesCreate tr _ _ _ = a
  cases a with
  | error e => exact ⟨_, _, rfl⟩
  | ok op => exact ⟨_, _, rfl⟩

theorem dataStoreResource_Create_of_result (r : dataStoreResource)
    (req : PlanRequest dataStoreResourceModel) (resp : Response dataStoreResourceModel)
    (tr : Trace) (result : CreateResult) (tr' : Trace)
    (hdiags : HasError (resp.Diagnostics ++ req.Plan.diags) = false)
    (hcall : CreateDataStoreFromGCS r.client req.Plan.value.DataStoreID.ValueString
        req.Plan.value.DisplayName.ValueString req.Plan.value.GCSUri.ValueString
        "DATA_SCHEMA_DOCUMENT" "INCREMENTAL" tr = ((some result, none), tr')) :
    dataStoreResource.Create r req resp tr
        = some ({ State := some { req.Plan.value with
                    ID := .value req.Plan.value.DataStoreID.ValueString
                    Name := .value result.DataStoreName }
                  Diagnostics := resp.Diagnostics ++ req.Plan.diags }, tr') ∧
      dataStoreResource.Update r req resp tr
        = some ({ State := some { req.Plan.value with Name := .value result.DataStoreName }
                  Diagnostics := resp.Diagnostics ++ req.Plan.diags }, tr') := by
  simp [dataStoreResource.Create, dataStoreResource.Update, hdiags, hcall]

theorem engineResource_Create_of_result (r : engineResource)
    (req : PlanRequest engineResourceModel) (resp : Response engineResourceModel)
    (tr : Trace) (result : CreateResult) (tr' : Trace)
    (hdiags : HasError (resp.Diagnostics ++ req.Plan.diags) = false)
    (hcall : CreateSearchEngine r.client req.Plan.value.EngineID.ValueString
        req.Plan.value.DisplayName.ValueString (engineResource.dataStoreIDs req.Plan.value)
        "SEARCH_TIER_ENTERPRISE" tr = ((some result, none), tr')) :
    engineResource.Create r req resp tr
        = some ({ State := some { req.Plan.value with
                    ID := .value req.Plan.value.EngineID.ValueString
                    Name := .value result.EngineName }
                  Diagnostics := resp.Diagnostics ++ req.Plan.diags }, tr') ∧
      engineResource.Update r req resp tr
        = some ({ State := some { req.Plan.value with Name := .value result.EngineName }
                  Diagnostics := resp.Diagnostics ++ req.Plan.diags }, tr') := by
  simp [engineResource.Create, engineResource.Update, hdiags, hcall]

/-- C14 fails on the code: when the remote create fails the client returns a
`CreateResult` with Status "error" and a nil error, and `Create` of both resources
records no diagnostic and persists the resource with an empty name. -/
theorem C14_failed_create_is_persisted :
    (CreateDataStoreFromGCS failClient "ds1" "Docs" "gs://bucket/docs/*" "DATA_SCHEMA_DOCUMENT"
        "INCREMENTAL" []).1
      = (some { Status := "error", Error := "Failed to create data store: boom" }, none) ∧
    (dataStoreResource.Create { client := failClient } { Plan := { value := dataStorePlan } }
        { State := none } []).map (fun out => out.1)
      = some { State := some { dataStorePlan with ID := .value "ds1", Name := .value "" }
               Diagnostics := [] } ∧
    (CreateSearchEngine failClient "eng1" "Search" (some ["ds1"]) "SEARCH_TIER_ENTERPRISE" []).1
      = (some { Status := "error", Error := "Failed to create engine: boom" }, none) ∧
    (engineResource.Create { client := failClient } { Plan := { value := enginePlan } }
        { State := none } []).map (fun out => out.1)
      = some { State := some { enginePlan with ID := .value "eng1", Name := .value "" }
               Diagnostics := [] } := by
  decide

/-- C15 fails on the code: `Delete` of both resources issues the delete for the
deterministic name, and when that remote delete fails (the `DeleteResult` has Status
"error") it still removes the resource from the state and records no diagnostic. -/
theorem C15_failed_delete_drops_state :
    DeleteDataStore failClient
        "projects/p/locations/us/collections/default_collection/dataStores/ds1" []
      = ((some { Status := "error", Message := "Failed to delete data store: boom" }, none),
          [{ call := .DataStoresDelete
               "projects/p/locations/us/collections/default_collection/dataStores/ds1",
             err := some "boom" }]) ∧
    dataStoreResource.Delete { client := failClient } { State := { value := dataStoreState } }
        { State := some dataStoreState } []
      = ({ State := none, Diagnostics := [] },
          [{ call := .DataStoresDelete
               "projects/p/locations/us/collections/default_collection/dataStores/ds1",
             err := some "boom" }]) ∧
    DeleteEngine failClient
        "projects/p/locations/us/collections/default_collection/engines/eng1" []
      = ((some { Status := "error", Message := "Failed to delete engine: boom" }, none),
          [{ call := .EnginesDelete
               "projects/p/locations/us/collections/default_collection/engines/eng1",
             err := some "boom" }]) ∧
    engineResource.Delete { client := failClient } { State := { value := engineState } }
        { State := some engineState } []
      = ({ State := none, Diagnostics := [] },
          [{ call := .EnginesDelete
               "projects/p/locations/us/collections/default_collection/engines/eng1",
             err := some "boom" }]) := by
  decide

theorem resource_Delete_always_removes (rd : dataStoreResource) (re : engineResource)
    (reqd : StateRequest dataStoreResourceModel) (respd : Response dataStoreResourceModel)
    (reqe : StateRequest engineResourceModel) (respe : Response engineResourceModel)
    (tr : Trace) :
    (HasError (respd.Diagnostics ++ reqd.State.diags) = false →
      dataStoreResource.Delete rd reqd respd tr
        = ({ State := none, Diagnostics := respd.Diagnostics ++ reqd.State.diags },
            (DeleteDataStore rd.client
              ("projects/" ++ rd.client.config.ProjectID ++ "/locations/"
                ++ rd.client.config.Location ++ "/collections/" ++ rd.client.config.Collection
                ++ "/dataStores/" ++ reqd.State.value.DataStoreID.ValueString) tr).2)) ∧
    (HasError (respe.Diagnostics ++ reqe.State.diags) = false →
      engineResource.Delete re reqe respe tr
        = ({ State := none, Diagnostics := respe.Diagnostics ++ reqe.State.diags },
            (DeleteEngine re.client
              ("projects/" ++ re.client.config.ProjectID ++ "/locations/"
                ++ re.client.config.Location ++ "/collections/" ++ re.client.config.Collection
                ++ "/engines/" ++ reqe.State.value.EngineID.ValueString) tr).2)) := by
  constructor
  · intro h
    simp only [dataStoreResource.Delete, h, DeleteDataStore, doCall]
    generalize rd.client.service.DataStoresDelete tr _ = a
    cases a <;> simp
  · intro h
    simp only [engineResource.Delete, h, DeleteEngine, doCall]
    generalize re.client.service.EnginesDelete tr _ = a
    cases a <;> simp

/-- C16: in `CreateDataStoreFromGCS`, whenever the create-container call (the first call
issued) succeeds, exactly one import call is issued; its target is the deterministic
data-store name followed by "/branches/default_branch" and its request carries exactly
one input URI, the caller's gcsURI, and the caller's dataSchema and reconciliationMode. -/
theorem C16_import_request (c : GeminiClient)
    (id displayName gcsURI dataSchema reconciliationMode : String) (tr : Trace) (first : Event)
    (hfirst : (issued tr
      (CreateDataStoreFromGCS c id displayName gcsURI dataSchema reconciliationMode tr).2).head?
        = some first)
    (hok : first.err = none) :
    ∃ importErr,
      issued tr (CreateDataStoreFromGCS c id displayName gcsURI dataSchema reconciliationMode tr).2
        = [first, Event.mk
            (Call.DocumentsImport
              ("projects/" ++ c.config.ProjectID ++ "/locations/" ++ c.config.Location
                ++ "/collections/" ++ c.config.Collection ++ "/dataStores/" ++ id
                ++ "/branches/default_branch")
              { GcsSource := some { InputUris := some [gcsURI], DataSchema := dataSchema }
                ReconciliationMode := reconciliationMode })
            importErr] ∧
      (∃ parent body, first.call = Call.DataStoresCreate parent body id) ∧
      importCalls (issued tr
        (CreateDataStoreFromGCS c id displayName gcsURI dataSchema reconciliationMode tr).2)
        = 1 := by
  revert hfirst
  simp only [CreateDataStoreFromGCS, doCall]
  generalize c.service.DataStoresCreate tr _ _ _ = a
  cases a with
  | error e =>
    intro hfirst
    simp only [issued_append, List.head?_cons, Option.some.injEq] at hfirst
    subst hfirst
    simp at hok
  | ok op =>
    simp only
    generalize c.service.DocumentsImport _ _ _ = b
    cases b with
    | error e =>
      intro hfirst
      simp only [List.append_assoc, issued_append, List.singleton_append, List.head?_cons,
        Option.some.injEq] at hfirst
      subst hfirst
      simp [importCalls]
    | ok op2 =>
      intro hfirst
      simp only [List.append_assoc, issued_append, List.singleton_append, List.head?_cons,
        Option.some.injEq] at hfirst
      subst hfirst
      simp [importCalls]

theorem C16_import_request_witness :
    (issued [] (CreateDataStoreFromGCS importFailClient "ds1" "Docs" "gs://bucket/docs/*"
        "content" "INCREMENTAL" []).2).head?
      = some { call := Call.DataStoresCreate
                 "projects/p/locations/us/collections/default_collection"
                 { DisplayName := "Docs", IndustryVertical := "GENERIC",
                   SolutionTypes := some ["SOLUTION_TYPE_SEARCH"],
                   ContentConfig := "CONTENT_REQUIRED" } "ds1",
               err := none } ∧
    importCalls (issued [] (CreateDataStoreFromGCS importFailClient "ds1" "Docs"
      "gs://bucket/docs/*" "content" "INCREMENTAL" []).2) = 1 :=
  ⟨by decide,
    (C16_import_request importFailClient "ds1" "Docs" "gs://bucket/docs/*" "content"
      "INCREMENTAL" [] _ rfl rfl).elim (fun _ h => h.2.2)⟩

theorem CreateDataStoreFromGCS_calls (c : GeminiClient)
    (id displayName gcsURI dataSchema reconciliationMode : String) (tr : Trace) :
    ∀ ev ∈ issued tr
        (CreateDataStoreFromGCS c id displayName gcsURI dataSchema reconciliationMode tr).2,
      (∃ parent body, ev.call = Call.DataStoresCreate parent body id) ∨
        (∃ parent body, ev.call = Call.DocumentsImport parent body) := by
  simp only [CreateDataStoreFromGCS, doCall]
  generalize c.service.DataStoresCreate tr _ _ _ = a
  cases a with
  | error e => simp
  | ok op =>
    simp only
    generalize c.service.DocumentsImport _ _ _ = b
    cases b with
    | error e => simp
    | ok op2 => simp

theorem CreateSearchEngine_calls (c : GeminiClient) (id displayName searchTier : String)
    (dataStoreIDs : Option (List String)) (tr : Trace) :
    ∀ ev ∈ issued tr (CreateSearchEngine c id displayName dataStoreIDs searchTier tr).2,
      ∃ parent body, ev.call = Call.EnginesCreate parent body id := by
  simp only [CreateSearchEngine, doCall]
  generalize c.service.EnginesCreate tr _ _ _ = a
  cases a with
  | error e => simp
  | ok op => simp

/-- C17: for every plan and every behaviour of the remote API, `Update` issues the same
client create call as `Create`, with the same arguments, hence the same sequence of
remote calls (only create and import calls, no delete), and stores the same resource
Name in the resulting state. -/
theorem C17_update_reruns_create (rd : dataStoreResource) (re : engineResource)
    (reqd : PlanRequest dataStoreResourceModel) (reqe : PlanRequest engineResourceModel)
    (priord : Option dataStoreResourceModel) (priore : Option engineResourceModel)
    (diags : Diagnostics) (tr : Trace) :
    ((dataStoreResource.Update rd reqd { State := priord, Diagnostics := diags } tr).map
        (fun out => out.2)
      = (dataStoreResource.Create rd reqd { State := none, Diagnostics := diags } tr).map
        (fun out => out.2)) ∧
    (HasError (diags ++ reqd.Plan.diags) = false →
      ∃ result created updated tr',
        CreateDataStoreFromGCS rd.client reqd.Plan.value.DataStoreID.ValueString
            reqd.Plan.value.DisplayName.ValueString reqd.Plan.value.GCSUri.ValueString
            "DATA_SCHEMA_DOCUMENT" "INCREMENTAL" tr = ((some result, none), tr') ∧
        dataStoreResource.Create rd reqd { State := none, Diagnostics := diags } tr
          = some ({ State := some created, Diagnostics := diags ++ reqd.Plan.diags }, tr') ∧
        dataStoreResource.Update rd reqd { State := priord, Diagnostics := diags } tr
          = some ({ State := some updated, Diagnostics := diags ++ reqd.Plan.diags }, tr') ∧
        updated.Name = created.Name ∧ created.Name = .value result.DataStoreName ∧
        ∀ ev ∈ issued tr tr',
          (∃ parent body, ev.call
              = Call.DataStoresCreate parent body reqd.Plan.value.DataStoreID.ValueString) ∨
            (∃ parent body, ev.call = Call.DocumentsImport parent body)) ∧
    ((engineResource.Update re reqe { State := priore, Diagnostics := diags } tr).map
        (fun out => out.2)
      = (engineResource.Create re reqe { State := none, Diagnostics := diags } tr).map
        (fun out => out.2)) ∧
    (HasError (diags ++ reqe.Plan.diags) = false →
      ∃ result created updated tr',
        CreateSearchEngine re.client reqe.Plan.value.EngineID.ValueString
            reqe.Plan.value.DisplayName.ValueString (engineResource.dataStoreIDs reqe.Plan.value)
            "SEARCH_TIER_ENTERPRISE" tr = ((some result, none), tr') ∧
        engineResource.Create re reqe { State := none, Diagnostics := diags } tr
          = some ({ State := some created, Diagnostics := diags ++ reqe.Plan.diags }, tr') ∧
        engineResource.Update re reqe { State := priore, Diagnostics := diags } tr
          = some ({ State := some updated, Diagnostics := diags ++ reqe.Plan.diags }, tr') ∧
        updated.Name = created.Name ∧ created.Name = .value result.EngineName ∧
        ∀ ev ∈ issued tr tr', ∃ parent body, ev.call
          = Call.EnginesCreate parent body reqe.Plan.value.EngineID.ValueString) := by
  obtain ⟨resultd, trd, hd⟩ := CreateDataStoreFromGCS_returns_result rd.client
    reqd.Plan.value.DataStoreID.ValueString reqd.Plan.value.DisplayName.ValueString
    reqd.Plan.value.GCSUri.ValueString "DATA_SCHEMA_DOCUMENT" "INCREMENTAL" tr
  obtain ⟨resulte, tre, he⟩ := CreateSearchEngine_returns_result re.client
    reqe.Plan.value.EngineID.ValueString reqe.Plan.value.DisplayName.ValueString
    "SEARCH_TIER_ENTERPRISE" (engineResource.dataStoreIDs reqe.Plan.value) tr
  have hcd := CreateDataStoreFromGCS_calls rd.client
    reqd.Plan.value.DataStoreID.ValueString reqd.Plan.value.DisplayName.ValueString
    reqd.Plan.value.GCSUri.ValueString "DATA_SCHEMA_DOCUMENT" "INCREMENTAL" tr
  have hce := CreateSearchEngine_calls re.client
    reqe.Plan.value.EngineID.ValueString reqe.Plan.value.DisplayName.ValueString
    "SEARCH_TIER_ENTERPRISE" (engineResource.dataStoreIDs reqe.Plan.value) tr
  rw [hd] at hcd
  rw [he] at hce
  refine ⟨?_, ?_, ?_, ?_⟩
  · cases h : HasError (diags ++ reqd.Plan.diags) with
    | true => simp [dataStoreResource.Create, dataStoreResource.Update, h]
    | false =>
      have hc := dataStoreResource_Create_of_result rd reqd { State := none, Diagnostics := diags }
        tr resultd trd h hd
      have hu := dataStoreResource_Create_of_result rd reqd
        { State := priord, Diagnostics := diags } tr resultd trd h hd
      rw [hc.1, hu.2]
      rfl
  · intro h
    have hc := dataStoreResource_Create_of_result rd reqd { State := none, Diagnostics := diags }
      tr resultd trd h hd
    have hu := dataStoreResource_Create_of_result rd reqd
      { State := priord, Diagnostics := diags } tr resultd trd h hd
    exact ⟨resultd, _, _, trd, hd, hc.1, hu.2, rfl, rfl, hcd⟩
  · cases h : HasError (diags ++ reqe.Plan.diags) with
    | true => simp [engineResource.Create, engineResource.Update, h]
    | false =>
      have hc := engineResource_Create_of_result re reqe { State := none, Diagnostics := diags }
        tr resulte tre h he
      have hu := engineResource_Create_of_result re reqe
        { State := priore, Diagnostics := diags } tr resulte tre h he
      rw [hc.1, hu.2]
      rfl
  · intro h
    have hc := engineResource_Create_of_result re reqe { State := none, Diagnostics := diags }
      tr resulte tre h he
    have hu := engineResource_Create_of_result re reqe
      { State := priore, Diagnostics := diags } tr resulte tre h he
    exact ⟨resulte, _, _, tre, he, hc.1, hu.2, rfl, rfl, hce⟩

theorem C17_update_reruns_create_witness :
    HasError (([] : Diagnostics) ++ []) = false ∧
    (∃ result created updated tr',
      CreateDataStoreFromGCS okClient "ds1" "Docs" "gs://bucket/docs/*"
          "DATA_SCHEMA_DOCUMENT" "INCREMENTAL" [] = ((some result, none), tr') ∧
      dataStoreResource.Create { client := okClient } { Plan := { value := dataStorePlan } }
          { State := none, Diagnostics := [] } []
        = some ({ State := some created, Diagnostics := [] ++ [] }, tr') ∧
      dataStoreResource.Update { client := okClient } { Plan := { value := dataStorePlan } }
          { State := some dataStoreState, Diagnostics := [] } []
        = some ({ State := some updated, Diagnostics := [] ++ [] }, tr') ∧
      updated.Name = created.Name ∧ created.Name = .value result.DataStoreName ∧
      ∀ ev ∈ issued [] tr',
        (∃ parent body, ev.call = Call.DataStoresCreate parent body "ds1") ∨
          (∃ parent body, ev.call = Call.DocumentsImport parent body)) ∧
    (∃ result created updated tr',
      CreateSearchEngine okClient "eng1" "Search" (some ["ds1"]) "SEARCH_TIER_ENTERPRISE" []
        = ((some result, none), tr') ∧
      engineResource.Create { client := okClient } { Plan := { value := enginePlan } }
          { State := none, Diagnostics := [] } []
        = some ({ State := some created, Diagnostics := [] ++ [] }, tr') ∧
      engineResource.Update { client := okClient } { Plan := { value := enginePlan } }
          { State := some engineState, Diagnostics := [] } []
        = some ({ State := some updated, Diagnostics := [] ++ [] }, tr') ∧
      updated.Name = created.Name ∧ created.Name = .value result.EngineName ∧
      ∀ ev ∈ issued [] tr', ∃ parent body, ev.call = Call.EnginesCreate parent body "eng1") :=
  ⟨by decide,
    (C17_update_reruns_create { client := okClient } { client := okClient }
      { Plan := { value := dataStorePlan } } { Plan := { value := enginePlan } }
      (some dataStoreState) (some engineState) [] []).2.1 (by decide),
    (C17_update_reruns_create { client := okClient } { client := okClient }
      { Plan := { value := dataStorePlan } } { Plan := { value := enginePlan } }
      (some dataStoreState) (some engineState) [] []).2.2.2 (by decide)⟩

/-! ## Resolution of referenced data stores -/

theorem detailReadNames_resolveDataStores (c : GeminiClient) :
    ∀ (ids : List String) (tr : Trace),
      detailReadNames (resolveDataStores c ids tr).2
        = ids.map (fun d => "projects/" ++ c.config.ProjectID ++ "/locations/"
            ++ c.config.Location ++ "/collections/" ++ c.config.Collection
            ++ "/dataStores/" ++ d) := by
  intro ids
  induction ids with
  | nil => intro tr; rfl
  | cons d rest ih =>
    intro tr
    simp only [resolveDataStores]
    generalize c.service.DataStoresGet tr _ = a
    cases a with
    | error e =>
      simp only [detailReadNames, List.filterMap_cons, List.map_cons]
      exact congrArg _ (ih _)
    | ok w =>
      simp only
      generalize c.service.SchemasGet _ _ = b
      cases b with
      | error e =>
        simp only [detailReadNames, List.filterMap_cons, List.map_cons]
        exact congrArg _ (ih _)
      | ok schema =>
        simp only [detailReadNames, List.filterMap_cons, List.map_cons]
        exact congrArg _ (ih _)

/-- C18, as stated, fails: for an engine of the collection `other` read through a client
configured for `default_collection`, the referenced data stores are read in
`default_collection`, not in the engine's own collection. -/
theorem C18_reads_in_configured_collection :
    (GetEngineFullConfig okClient "projects/p/locations/us/collections/other/engines/eng1"
        []).map (fun out => detailReadNames (issued [] out.2))
      = some ["projects/p/locations/us/collections/default_collection/dataStores/ds1",
              "projects/p/locations/us/collections/default_collection/dataStores/ds2"] ∧
    okService.EnginesGet [] "projects/p/locations/us/collections/other/engines/eng1"
      = .ok { Name := "projects/p/locations/us/collections/other/engines/eng1",
              DataStoreIds := some ["ds1", "ds2"] } :=
  ⟨by decide, rfl⟩

/-- C18, amended: for every engine name whose read succeeds, `GetEngineFullConfig`
resolves each referenced data-store id d within the project, location and collection of
the client configuration: the detail reads it issues are, in order, those of
"projects/P/locations/L/collections/C/dataStores/d" with P, L, C from the client config.
This is the engine's own collection when the engine is named
"projects/P/locations/L/collections/C/engines/e". -/
theorem C18_data_stores_resolved_in_client_collection (c : GeminiClient) (engineName : String)
    (tr : Trace) (we : WireEngine) (hengine : c.service.EnginesGet tr engineName = .ok we) :
    ∃ config tr', GetEngineFullConfig c engineName tr = some ((some config, none), tr') ∧
      detailReadNames (issued tr tr')
        = (we.DataStoreIds.getD []).map (fun d => "projects/" ++ c.config.ProjectID
            ++ "/locations/" ++ c.config.Location ++ "/collections/" ++ c.config.Collection
            ++ "/dataStores/" ++ d) := by
  refine ⟨_, _, GetEngineFullConfig_of_engine_ok c engineName tr we hengine, ?_⟩
  rw [issued_append]
  simp only [detailReadNames, List.filterMap_cons]
  exact detailReadNames_resolveDataStores c _ _

theorem C18_data_stores_resolved_in_client_collection_witness :
    okService.EnginesGet []
        "projects/p/locations/us/collections/default_collection/engines/eng1"
      = .ok { Name := "projects/p/locations/us/collections/default_collection/engines/eng1",
              DataStoreIds := some ["ds1", "ds2"] } ∧
    ∃ config tr',
      GetEngineFullConfig okClient
          "projects/p/locations/us/collections/default_collection/engines/eng1" []
        = some ((some config, none), tr') ∧
      detailReadNames (issued [] tr')
        = (["ds1", "ds2"]).map (fun d => "projects/" ++ okClient.config.ProjectID
            ++ "/locations/" ++ okClient.config.Location ++ "/collections/"
            ++ okClient.config.Collection ++ "/dataStores/" ++ d) :=
  ⟨rfl, C18_data_stores_resolved_in_client_collection okClient
    "projects/p/locations/us/collections/default_collection/engines/eng1" [] _ rfl⟩

/-! ## Converters -/

/-- C19, as stated, fails: for a wire data store and a wire engine that lack them, the
converted SolutionTypes, Schema, DataStoreIds and Features are nil, not empty. -/
theorem C19_absent_containers_stay_nil :
    (convertDataStore {}).SolutionTypes = none ∧ (convertDataStore {}).Schema = none ∧
    (convertEngine {}).DataStoreIds = none ∧ (convertEngine {}).Features = none := by
  decide

/-- C19, amended: the converters copy the scalar fields unchanged;
DocumentProcessingConfig, CommonConfig and Content of the result are never nil (they are
empty, CommonConfig holding "companyName" when the wire engine has a common config);
SolutionTypes, DataStoreIds and Features are the wire values as they are, nil when the
wire value lacks them; Schema is left unset by the converter. -/
theorem C19_converters (ds : WireDataStore) (engine : WireEngine) (doc : WireDocument) :
    ((convertDataStore ds).Name = ds.Name ∧ (convertDataStore ds).DisplayName = ds.DisplayName ∧
      (convertDataStore ds).IndustryVertical = ds.IndustryVertical ∧
      (convertDataStore ds).ContentConfig = ds.ContentConfig ∧
      (convertDataStore ds).CreateTime = ds.CreateTime ∧
      (convertDataStore ds).AclEnabled = ds.AclEnabled ∧
      (convertDataStore ds).BillingEstimation = ds.BillingEstimation.map (fun b =>
        { UnstructuredDataSize := b.UnstructuredDataSize
          UnstructuredDataUpdateTime := b.UnstructuredDataUpdateTime }) ∧
      (convertDataStore ds).DocumentProcessingConfig = some [] ∧
      (convertDataStore ds).SolutionTypes = ds.SolutionTypes ∧
      (convertDataStore ds).Schema = none) ∧
    ((convertEngine engine).Name = engine.Name ∧
      (convertEngine engine).DisplayName = engine.DisplayName ∧
      (convertEngine engine).SolutionType = engine.SolutionType ∧
      (convertEngine engine).IndustryVertical = engine.IndustryVertical ∧
      (convertEngine engine).AppType = engine.AppType ∧
      (convertEngine engine).CreateTime = engine.CreateTime ∧
      (convertEngine engine).CommonConfig
        = some (match engine.CommonConfig with
                | some cc => [("companyName", cc.CompanyName)]
                | none => []) ∧
      (convertEngine engine).DataStoreIds = engine.DataStoreIds ∧
      (convertEngine engine).Features = engine.Features ∧
      (convertEngine engine).SearchEngineConfig = none) ∧
    ((convertDocument doc).ID = doc.Id ∧ (convertDocument doc).IndexTime = doc.IndexTime ∧
      (convertDocument doc).Content = some []) := by
  refine ⟨⟨rfl, rfl, rfl, rfl, rfl, rfl, ?_, rfl, rfl, rfl⟩,
    ⟨rfl, rfl, rfl, rfl, rfl, rfl, ?_, rfl, rfl, rfl⟩, ⟨rfl, rfl, rfl⟩⟩
  · simp only [convertDataStore]
    cases ds.BillingEstimation <;> rfl
  · simp only [convertEngine]
    cases engine.CommonConfig <;> rfl

/-! ## Provider configuration -/

theorem NewGeminiClient_config (env : Env) (getDefaultProject : Except String String)
    (NewService : ServiceOptions → Except String Service) (config : Config)
    (client : GeminiClient)
    (h : NewGeminiClient env getDefaultProject NewService config = (some client, none)) :
    client.config.Location
        = (if config.Location = "" then getDefaultLocation env else config.Location) ∧
      client.config.Collection = config.Collection := by
  revert h
  simp only [NewGeminiClient]
  split
  · intro h
    simp at h
  · rename_i cfg hres
    have hcfg : cfg.Location
          = (if config.Location = "" then getDefaultLocation env else config.Location) ∧
        cfg.Collection = config.Collection := by
      revert hres
      by_cases hl : config.Location = "" <;> by_cases hp : config.ProjectID = "" <;>
        cases getDefaultProject <;> simp [hl, hp] <;> rintro rfl <;> simp [hl]
    split
    · split
      · intro h
        simp at h
      · intro h
        simp only [Prod.mk.injEq, Option.some.injEq, and_true] at h
        subst h
        exact hcfg
    · split
      · intro h
        simp at h
      · intro h
        simp only [Prod.mk.injEq, Option.some.injEq, and_true] at h
        subst h
        exact hcfg

/-- C20: `Configure` builds the client config with Location equal to the configured
location when it is non-empty and "us" otherwise, and Collection equal to the configured
collection when it is non-empty and "default_collection" otherwise; so `NewGeminiClient`
is called with a non-empty location and collection, its own location default is never
used, and the client that `Configure` stores carries that location and collection. -/
theorem C20_configure_defaults (env : Env) (getDefaultProject : Except String String)
    (NewService : ServiceOptions → Except String Service) (p : gemctlProvider)
    (req : ConfigureRequest) (resp : ConfigureResponse) :
    (gemctlProvider.Configure.clientConfig req.Config.value).Location
      = (if req.Config.value.Location.ValueString = "" then "us"
          else req.Config.value.Location.ValueString) ∧
    (gemctlProvider.Configure.clientConfig req.Config.value).Collection
      = (if req.Config.value.Collection.ValueString = "" then "default_collection"
          else req.Config.value.Collection.ValueString) ∧
    (gemctlProvider.Configure.clientConfig req.Config.value).Location ≠ "" ∧
    (gemctlProvider.Configure.clientConfig req.Config.value).Collection ≠ "" ∧
    (HasError (resp.Diagnostics ++ req.Config.diags) = false →
      gemctlProvider.Configure env getDefaultProject NewService p req resp
        = (match NewGeminiClient env getDefaultProject NewService
              (gemctlProvider.Configure.clientConfig req.Config.value) with
            | (_, some err) =>
              (p, { resp with Diagnostics := AddError (resp.Diagnostics ++ req.Config.diags)
                                "Unable to create Gemini client" err })
            | (geminiClient, none) =>
              ({ p with client := geminiClient },
                { resp with Diagnostics := resp.Diagnostics ++ req.Config.diags
                            DataSourceData := geminiClient
                            ResourceData := geminiClient }))) ∧
    (∀ client, NewGeminiClient env getDefaultProject NewService
          (gemctlProvider.Configure.clientConfig req.Config.value) = (some client, none) →
      client.config.Location = (gemctlProvider.Configure.clientConfig req.Config.value).Location ∧
      client.config.Collection
        = (gemctlProvider.Configure.clientConfig req.Config.value).Collection) := by
  have hloc : (gemctlProvider.Configure.clientConfig req.Config.value).Location ≠ "" := by
    simp only [gemctlProvider.Configure.clientConfig]
    split
    · decide
    · assumption
  have hcol : (gemctlProvider.Configure.clientConfig req.Config.value).Collection ≠ "" := by
    simp only [gemctlProvider.Configure.clientConfig]
    split
    · decide
    · assumption
  refine ⟨rfl, rfl, hloc, hcol, ?_, ?_⟩
  · intro h
    simp only [gemctlProvider.Configure, h]
    rfl
  · intro client h
    have hc := NewGeminiClient_config env getDefaultProject NewService _ client h
    simpa [hloc] using hc

theorem C20_configure_defaults_witness :
    HasError (({} : ConfigureResponse).Diagnostics
      ++ ({ value := bareProviderModel } : Decoded gemctlProviderModel).diags) = false ∧
    gemctlProvider.Configure.clientConfig bareProviderModel
      = { ProjectID := "p", Location := "us", Collection := "default_collection" } ∧
    NewGeminiClient {} (.error "no project") usNewService
        (gemctlProvider.Configure.clientConfig bareProviderModel)
      = (some { service := okService, config := sampleConfig }, none) ∧
    (sampleConfig.Location = (gemctlProvider.Configure.clientConfig bareProviderModel).Location ∧
      sampleConfig.Collection
        = (gemctlProvider.Configure.clientConfig bareProviderModel).Collection) :=
  ⟨by decide, by decide, rfl,
    (C20_configure_defaults {} (.error "no project") usNewService { client := none }
      { Config := { value := bareProviderModel } } {}).2.2.2.2.2
      { service := okService, config := sampleConfig } rfl⟩

/-! ## Read of the resources -/

/-- C21: `Read` of both resources, for every prior state that decodes without error,
issues exactly one remote call, the fetch of the deterministic name built from the
client config and the stored id. On success the new state is the prior state with
display_name and name taken from the response, and id, the resource id and the remaining
fields (gcs_uri, data_stores) unchanged; on a failed fetch an error diagnostic is added
and the state of the response is left as it was (nothing is written). -/
theorem C21_read_refreshes_display_fields (rd : dataStoreResource) (re : engineResource)
    (reqd : StateRequest dataStoreResourceModel) (reqe : StateRequest engineResourceModel)
    (respd : Response dataStoreResourceModel) (respe : Response engineResourceModel)
    (tr : Trace) :
    (HasError (respd.Diagnostics ++ reqd.State.diags) = false →
      (∃ out, dataStoreResource.Read rd reqd respd tr = some out ∧
        issued tr out.2 = [Event.mk (Call.DataStoresGet ("projects/" ++ rd.client.config.ProjectID ++ "/locations/"
          ++ rd.client.config.Location ++ "/collections/" ++ rd.client.config.Collection
          ++ "/dataStores/" ++ reqd.State.value.DataStoreID.ValueString))
          (errOf (rd.client.service.DataStoresGet tr ("projects/" ++ rd.client.config.ProjectID ++ "/locations/"
          ++ rd.client.config.Location ++ "/collections/" ++ rd.client.config.Collection
          ++ "/dataStores/" ++ reqd.State.value.DataStoreID.ValueString)))]) ∧
      (∀ w, rd.client.service.DataStoresGet tr ("projects/" ++ rd.client.config.ProjectID ++ "/locations/"
          ++ rd.client.config.Location ++ "/collections/" ++ rd.client.config.Collection
          ++ "/dataStores/" ++ reqd.State.value.DataStoreID.ValueString) = .ok w →
        ∃ new tr', dataStoreResource.Read rd reqd respd tr
            = some ({ State := some new
                      Diagnostics := respd.Diagnostics ++ reqd.State.diags }, tr') ∧
          new.DisplayName = .value w.DisplayName ∧ new.Name = .value w.Name ∧
          new.ID = reqd.State.value.ID ∧ new.DataStoreID = reqd.State.value.DataStoreID ∧
          new.GCSUri = reqd.State.value.GCSUri) ∧
      (∀ e, rd.client.service.DataStoresGet tr ("projects/" ++ rd.client.config.ProjectID ++ "/locations/"
          ++ rd.client.config.Location ++ "/collections/" ++ rd.client.config.Collection
          ++ "/dataStores/" ++ reqd.State.value.DataStoreID.ValueString) = .error e →
        ∃ tr', dataStoreResource.Read rd reqd respd tr
            = some ({ State := respd.State
                      Diagnostics := AddError (respd.Diagnostics ++ reqd.State.diags)
                        "Error reading data store"
                        ("Failed to read data store: "
                          ++ ("failed to get data store details: " ++ e)) }, tr'))) ∧
    (HasError (respe.Diagnostics ++ reqe.State.diags) = false →
      (∃ out, engineResource.Read re reqe respe tr = some out ∧
        issued tr out.2 = [Event.mk (Call.EnginesGet ("projects/" ++ re.client.config.ProjectID ++ "/locations/"
          ++ re.client.config.Location ++ "/collections/" ++ re.client.config.Collection
          ++ "/engines/" ++ reqe.State.value.EngineID.ValueString))
          (errOf (re.client.service.EnginesGet tr ("projects/" ++ re.client.config.ProjectID ++ "/locations/"
          ++ re.client.config.Location ++ "/collections/" ++ re.client.config.Collection
          ++ "/engines/" ++ reqe.State.value.EngineID.ValueString)))]) ∧
      (∀ w, re.client.service.EnginesGet tr ("projects/" ++ re.client.config.ProjectID ++ "/locations/"
          ++ re.client.config.Location ++ "/collections/" ++ re.client.config.Collection
          ++ "/engines/" ++ reqe.State.value.EngineID.ValueString) = .ok w →
        ∃ new tr', engineResource.Read re reqe respe tr
            = some ({ State := some new
                      Diagnostics := respe.Diagnostics ++ reqe.State.diags }, tr') ∧
          new.DisplayName = .value w.DisplayName ∧ new.Name = .value w.Name ∧
          new.ID = reqe.State.value.ID ∧ new.EngineID = reqe.State.value.EngineID ∧
          new.DataStores = reqe.State.value.DataStores) ∧
      (∀ e, re.client.service.EnginesGet tr ("projects/" ++ re.client.config.ProjectID ++ "/locations/"
          ++ re.client.config.Location ++ "/collections/" ++ re.client.config.Collection
          ++ "/engines/" ++ reqe.State.value.EngineID.ValueString) = .error e →
        ∃ tr', engineResource.Read re reqe respe tr
            = some ({ State := respe.State
                      Diagnostics := AddError (respe.Diagnostics ++ reqe.State.diags)
                        "Error reading engine"
                        ("Failed to read engine: "
                          ++ ("failed to get engine details: " ++ e)) }, tr'))) := by
  constructor
  · intro h
    simp only [dataStoreResource.Read, h, GetDataStoreDetails, doCall]
    generalize rd.client.service.DataStoresGet tr _ = a
    cases a with
    | error e => simp
    | ok w => simp [convertDataStore]
  · intro h
    simp only [engineResource.Read, h, GetEngineDetails, doCall]
    generalize re.client.service.EnginesGet tr _ = a
    cases a with
    | error e => simp
    | ok w => simp [convertEngine]

theorem C21_read_refreshes_display_fields_witness :
    HasError (([] : Diagnostics) ++ []) = false ∧
    partialService.DataStoresGet [] "projects/p/locations/us/collections/default_collection/dataStores/ds1"
      = .ok (WireDataStore.mk "projects/p/locations/us/collections/default_collection/dataStores/ds1"
          "store" "" "" "" none false none) ∧
    (∃ new tr', dataStoreResource.Read { client := partialClient }
          { State := { value := dataStoreState } } { State := some dataStoreState } []
        = some ({ State := some new, Diagnostics := [] ++ [] }, tr') ∧
      new.DisplayName = .value "store" ∧
      new.Name = .value "projects/p/locations/us/collections/default_collection/dataStores/ds1" ∧
      new.ID = dataStoreState.ID ∧ new.DataStoreID = dataStoreState.DataStoreID ∧
      new.GCSUri = dataStoreState.GCSUri) ∧
    failService.DataStoresGet [] "projects/p/locations/us/collections/default_collection/dataStores/ds1"
      = .error "boom" ∧
    (∃ tr', dataStoreResource.Read { client := failClient }
          { State := { value := dataStoreState } } { State := some dataStoreState } []
        = some ({ State := some dataStoreState
                  Diagnostics := AddError ([] ++ []) "Error reading data store"
                    ("Failed to read data store: "
                      ++ ("failed to get data store details: " ++ "boom")) }, tr')) :=
  ⟨by decide, rfl,
    ((C21_read_refreshes_display_fields { client := partialClient } { client := partialClient }
      { State := { value := dataStoreState } } { State := { value := engineState } }
      { State := some dataStoreState } { State := some engineState } []).1 (by decide)).2.1
      _ rfl,
    rfl,
    ((C21_read_refreshes_display_fields { client := failClient } { client := failClient }
      { State := { value := dataStoreState } } { State := { value := engineState } }
      { State := some dataStoreState } { State := some engineState } []).1 (by decide)).2.2
      _ rfl⟩

/-! ## The data stores of an engine as a filter-map -/

theorem resolveDataStores_withoutSchema (c : GeminiClient) :
    ∀ (ids : List String) (tr : Trace),
      (resolveDataStores c ids tr).1.map withoutSchema = convertedReads c ids tr := by
  intro ids
  induction ids with
  | nil => intro tr; rfl
  | cons d rest ih =>
    intro tr
    simp only [resolveDataStores, convertedReads]
    generalize c.service.DataStoresGet tr _ = a
    cases a with
    | error e =>
      simp only
      exact ih _
    | ok w =>
      simp only
      generalize c.service.SchemasGet _ _ = b
      cases b with
      | error e =>
        simp only [List.map_cons, errOf]
        rw [ih]
        rfl
      | ok schema =>
        simp only [List.map_cons, errOf]
        rw [ih]
        rfl

/-- C22: for every engine that reads successfully, `GetEngineFullConfig` returns no
error; the "engine" entry is the engine as read; the "data_stores" list is the
filter-map of the engine's DataStoreIds, in order and keeping repeated ids, that reads
each id at "projects/p/locations/l/collections/c/dataStores/<id>" (p, l, c from the
client config), drops the ids whose read fails and keeps the converted data store of
the others (each entry is that converted data store, its Schema field filled in when
the schema lookup succeeds); exactly one detail read is issued per referenced id, in the
order of the ids. -/
theorem C22_data_stores_filter_map (c : GeminiClient) (engineName : String) (tr : Trace)
    (we : WireEngine) (hengine : c.service.EnginesGet tr engineName = .ok we) :
    ∃ config stores tr',
      GetEngineFullConfig c engineName tr = some ((some config, none), tr') ∧
      config.get "engine" = some (.engine (convertEngine we)) ∧
      config.get "data_stores" = some (.list stores) ∧
      stores = (resolveDataStores c (we.DataStoreIds.getD [])
        (tr ++ [{ call := .EnginesGet engineName, err := none }])).1 ∧
      stores.map withoutSchema = convertedReads c (we.DataStoreIds.getD [])
        (tr ++ [{ call := .EnginesGet engineName, err := none }]) ∧
      detailReadNames (issued tr tr')
        = (we.DataStoreIds.getD []).map (fun d => "projects/" ++ c.config.ProjectID
            ++ "/locations/" ++ c.config.Location ++ "/collections/" ++ c.config.Collection
            ++ "/dataStores/" ++ d) ∧
      detailReads (issued tr tr') = (we.DataStoreIds.getD []).length := by
  refine ⟨_, (resolveDataStores c (we.DataStoreIds.getD [])
    (tr ++ [{ call := .EnginesGet engineName, err := none }])).1, _,
    GetEngineFullConfig_of_engine_ok c engineName tr we hengine, ?_, ?_, rfl,
    resolveDataStores_withoutSchema c _ _, ?_, ?_⟩
  · simp [ConfigMap.get]
  · simp [ConfigMap.get]
  · rw [issued_append]
    simp only [detailReadNames, List.filterMap_cons]
    exact detailReadNames_resolveDataStores c _ _
  · rw [issued_append]
    simp only [detailReads_cons, isDetailRead]
    simpa using (resolveDataStores_counts c (we.DataStoreIds.getD [])
      (tr ++ [{ call := .EnginesGet engineName, err := none }])).2

theorem C22_data_stores_filter_map_witness :
    partialService.EnginesGet [] "projects/p/locations/us/collections/default_collection/engines/eng1"
      = .ok (WireEngine.mk "projects/p/locations/us/collections/default_collection/engines/eng1"
          "" "" "" "" "" (some ["ds1", "ds2", "ds3"]) none none) ∧
    convertedReads partialClient ["ds1", "ds2", "ds3"]
        ([] ++ [Event.mk (.EnginesGet "projects/p/locations/us/collections/default_collection/engines/eng1")
          none])
      = [convertDataStore (WireDataStore.mk
            "projects/p/locations/us/collections/default_collection/dataStores/ds1"
            "store" "" "" "" none false none),
         convertDataStore (WireDataStore.mk
            "projects/p/locations/us/collections/default_collection/dataStores/ds3"
            "store" "" "" "" none false none)] ∧
    ∃ config stores tr',
      GetEngineFullConfig partialClient "projects/p/locations/us/collections/default_collection/engines/eng1" []
        = some ((some config, none), tr') ∧
      config.get "engine" = some (.engine (convertEngine (WireEngine.mk "projects/p/locations/us/collections/default_collection/engines/eng1"
          "" "" "" "" "" (some ["ds1", "ds2", "ds3"]) none none))) ∧
      config.get "data_stores" = some (.list stores) ∧
      stores = (resolveDataStores partialClient ["ds1", "ds2", "ds3"]
        ([] ++ [Event.mk (.EnginesGet "projects/p/locations/us/collections/default_collection/engines/eng1")
          none])).1 ∧
      stores.map withoutSchema = convertedReads partialClient ["ds1", "ds2", "ds3"]
        ([] ++ [Event.mk (.EnginesGet "projects/p/locations/us/collections/default_collection/engines/eng1")
          none]) ∧
      detailReadNames (issued [] tr')
        = (["ds1", "ds2", "ds3"]).map (fun d => "projects/" ++ partialClient.config.ProjectID
            ++ "/locations/" ++ partialClient.config.Location ++ "/collections/"
            ++ partialClient.config.Collection ++ "/dataStores/" ++ d) ∧
      detailReads (issued [] tr') = (["ds1", "ds2", "ds3"]).length :=
  ⟨rfl, by decide,
    C22_data_stores_filter_map partialClient "projects/p/locations/us/collections/default_collection/engines/eng1" [] _ rfl⟩

end Gemctl
